import Mathlib

/-!
Verification of the k6 performance-test orchestration pipeline of the
intelligent-test-platform repository.

The Python sources are shallowly embedded:
strings become `List Char` (wrapped into `String` at statement boundaries),
JSON / Python values become the inductive `PyVal`, fallible code returns
`Option`, and the regular expressions used by the code are embedded as
explicit token lists interpreted by a small matcher (`matchToks` /
`rsearch`) whose semantics coincide with Python `re.search` on the
pattern shapes that actually occur (literals, `\s*`, `\s+`, `(\d+)`,
`(\w+)`, `c?`, `\b`, `.*?`, character classes, and ordered alternation
of literals; greedy pieces are implemented by maximal munch, which is
exact here because in every embedded pattern each greedy piece is
followed by a token that can never match a character the piece accepts).

Unicode notes: `\s`, `\d` and `\w` are modelled over ASCII plus the CJK
Unified Ideographs block (which Python counts as word characters); this
covers every character appearing in the embedded patterns and inputs.
-/

namespace K6Spec

/-- Single-quote character (used in k6 scripts and Python dict literals). -/
def sq : Char := Char.ofNat 39

/-- Double-quote character. -/
def dq : Char := Char.ofNat 34

/-- String consisting of the single-quote character. -/
def sqs : String := String.mk [sq]

/-- ASCII decimal digit test, modelling Python regex `\d`. -/
def isDigitCh (c : Char) : Bool := decide (48 ≤ c.toNat) && decide (c.toNat ≤ 57)

/-- Whitespace test, modelling Python regex `\s` (ASCII part). -/
def isSpaceCh (c : Char) : Bool :=
  c = ' ' || c = Char.ofNat 9 || c = Char.ofNat 10 || c = Char.ofNat 13 ||
  c = Char.ofNat 11 || c = Char.ofNat 12

/-- CJK Unified Ideograph test (U+4E00 – U+9FFF). -/
def isCJK (c : Char) : Bool := decide (0x4e00 ≤ c.toNat) && decide (c.toNat ≤ 0x9fff)

/-- ASCII letter test. -/
def isAsciiAlpha (c : Char) : Bool :=
  (decide (65 ≤ c.toNat) && decide (c.toNat ≤ 90)) ||
  (decide (97 ≤ c.toNat) && decide (c.toNat ≤ 122))

/-- Word-character test, modelling Python regex `\w` on the characters that
occur in this development (ASCII alphanumerics, underscore, and CJK
ideographs, which Python treats as word characters). -/
def isWordCh (c : Char) : Bool :=
  isAsciiAlpha c || isDigitCh c || c = '_' || isCJK c

/-- ASCII lower-casing of a character (Python `str.lower` restricted to ASCII,
which is the only place case-insensitivity matters in the embedded patterns). -/
def lowerCh (c : Char) : Char :=
  if decide (65 ≤ c.toNat) && decide (c.toNat ≤ 90) then Char.ofNat (c.toNat + 32) else c

/-- Character comparison, optionally case-insensitive. -/
def chEq (ci : Bool) (p x : Char) : Bool :=
  if ci then lowerCh p = lowerCh x else p = x

/-- Numeric value of a digit string (Python `int` on a run of `\d`). -/
def natOfDigits (cs : List Char) : Nat :=
  cs.foldl (fun a c => a * 10 + (c.toNat - 48)) 0

/-- Python `str.isdigit` restricted to ASCII digits: nonempty and all digits. -/
def isDigitStr (cs : List Char) : Bool :=
  decide (cs ≠ []) && cs.all isDigitCh

/-- Prefix test on character lists. -/
def isPrefixSeq : List Char → List Char → Bool
  | [], _ => true
  | _ :: _, [] => false
  | p :: ps, x :: t => p = x && isPrefixSeq ps t

/-- Substring test on character lists (Python `needle in hay`). -/
def containsSeq (hay needle : List Char) : Bool :=
  match hay with
  | [] => needle.isEmpty
  | _ :: t => isPrefixSeq needle hay || containsSeq t needle

/-- Token language covering every regular expression used by the embedded
Python code.  `digitsAcc`, `wordAcc` and `plusAcc` are internal states of
the matcher (accumulating a greedy run) and never appear in the pattern
definitions themselves. -/
inductive RTok where
  | lit (ci : Bool) (cs : List Char)
  | ws
  | ws1
  | digits
  | digitsAcc (acc : List Char)
  | wordPlus
  | wordAcc (acc : List Char)
  | optChar (ci : Bool) (c : Char)
  | wb
  | lazyAny
  | quoteCls
  | alt (ci : Bool) (alts : List (List Char))
  | plusCls (f : Char → Bool)
  | plusAcc (f : Char → Bool)

/-- Rank used to show termination of the matcher when an alternation is
expanded into its alternatives. -/
@[simp] def altRank : List RTok → Nat
  | .alt _ alts :: _ => alts.length + 1
  | _ => 0

/-- Word-character test lifted to an optional previous character
(start of text counts as a non-word position). -/
def isWordOpt : Option Char → Bool
  | some c => isWordCh c
  | none => false

/-- Maximum alternation width of a token list (used for the fuel bound). -/
def maxAltLen (toks : List RTok) : Nat :=
  toks.foldl (fun m tk => match tk with | .alt _ alts => max m alts.length | _ => m) 0

/-- Match a token list at the current position.  `prev` is the character
immediately before the current position (for `\b`).  Returns the list of
captured groups (`digits` / `wordPlus` captures, in order) and the
remaining text.  Greedy runs use maximal munch; `optChar` prefers the
consuming branch and `lazyAny` the non-consuming one, exactly like
Python `re`.  The structural fuel makes the function kernel-computable;
every recursive call strictly decreases the lexicographic measure
(text length, token count, alternation rank), so the fuel chosen by
`matchToksFull` below — the volume of that measure space — can never run
out and the zero-fuel clause is unreachable. -/
def matchToks : Nat → List RTok → Option Char → List Char → Option (List (List Char) × List Char)
  | 0, _, _, _ => none
  | _ + 1, [], _, t => some ([], t)
  | fuel + 1, .lit _ [] :: rest, prev, t => matchToks fuel rest prev t
  | _ + 1, .lit _ (_ :: _) :: _, _, [] => none
  | fuel + 1, .lit ci (p :: ps) :: rest, _, x :: t =>
    if chEq ci p x then matchToks fuel (.lit ci ps :: rest) (some x) t else none
  | fuel + 1, .ws :: rest, prev, t =>
    match t with
    | x :: t2 =>
      if isSpaceCh x then matchToks fuel (.ws :: rest) (some x) t2
      else matchToks fuel rest prev (x :: t2)
    | [] => matchToks fuel rest prev []
  | fuel + 1, .ws1 :: rest, _, t =>
    match t with
    | x :: t2 => if isSpaceCh x then matchToks fuel (.ws :: rest) (some x) t2 else none
    | [] => none
  | fuel + 1, .digits :: rest, _, t =>
    match t with
    | x :: t2 => if isDigitCh x then matchToks fuel (.digitsAcc [x] :: rest) (some x) t2 else none
    | [] => none
  | fuel + 1, .digitsAcc acc :: rest, prev, t =>
    match t with
    | x :: t2 =>
      if isDigitCh x then matchToks fuel (.digitsAcc (x :: acc) :: rest) (some x) t2
      else (matchToks fuel rest prev (x :: t2)).map (fun r => (acc.reverse :: r.1, r.2))
    | [] => (matchToks fuel rest prev []).map (fun r => (acc.reverse :: r.1, r.2))
  | fuel + 1, .wordPlus :: rest, _, t =>
    match t with
    | x :: t2 => if isWordCh x then matchToks fuel (.wordAcc [x] :: rest) (some x) t2 else none
    | [] => none
  | fuel + 1, .wordAcc acc :: rest, prev, t =>
    match t with
    | x :: t2 =>
      if isWordCh x then matchToks fuel (.wordAcc (x :: acc) :: rest) (some x) t2
      else (matchToks fuel rest prev (x :: t2)).map (fun r => (acc.reverse :: r.1, r.2))
    | [] => (matchToks fuel rest prev []).map (fun r => (acc.reverse :: r.1, r.2))
  | fuel + 1, .optChar ci c :: rest, prev, t =>
    match t with
    | x :: t2 =>
      if chEq ci c x then
        match matchToks fuel rest (some x) t2 with
        | some r => some r
        | none => matchToks fuel rest prev (x :: t2)
      else matchToks fuel rest prev (x :: t2)
    | [] => matchToks fuel rest prev []
  | fuel + 1, .wb :: rest, prev, t =>
    let nxt : Bool := match t with | x :: _ => isWordCh x | [] => false
    if isWordOpt prev ≠ nxt then matchToks fuel rest prev t else none
  | fuel + 1, .lazyAny :: rest, prev, t =>
    match matchToks fuel rest prev t with
    | some r => some r
    | none =>
      match t with
      | [] => none
      | c :: t2 => if c = Char.ofNat 10 then none else matchToks fuel (.lazyAny :: rest) (some c) t2
  | fuel + 1, .quoteCls :: rest, _, t =>
    match t with
    | x :: t2 => if x = sq || x = dq then matchToks fuel rest (some x) t2 else none
    | [] => none
  | _ + 1, .alt _ [] :: _, _, _ => none
  | fuel + 1, .alt ci (a :: as) :: rest, prev, t =>
    match matchToks fuel (.lit ci a :: rest) prev t with
    | some r => some r
    | none => matchToks fuel (.alt ci as :: rest) prev t
  | fuel + 1, .plusCls f :: rest, _, t =>
    match t with
    | x :: t2 => if f x then matchToks fuel (.plusAcc f :: rest) (some x) t2 else none
    | [] => none
  | fuel + 1, .plusAcc f :: rest, prev, t =>
    match t with
    | x :: t2 =>
      if f x then matchToks fuel (.plusAcc f :: rest) (some x) t2
      else matchToks fuel rest prev (x :: t2)
    | [] => matchToks fuel rest prev []

/-- Fuel that bounds the matcher recursion depth: the volume of the
lexicographic measure space. -/
def matcherFuel (toks : List RTok) (t : List Char) : Nat :=
  (t.length + 1) * (toks.length + 1) * (maxAltLen toks + 2) + 1

/-- Matcher entry point with sufficient fuel. -/
def matchToksFull (toks : List RTok) (prev : Option Char) (t : List Char) :
    Option (List (List Char) × List Char) :=
  matchToks (matcherFuel toks t) toks prev t

/-- Leftmost search: try a match at every position from left to right,
threading the previous character for word boundaries — Python `re.search`.
Returns the captured groups and the matched text (group 0). -/
def rsearch (toks : List RTok) (prev : Option Char) (t : List Char) :
    Option (List (List Char) × List Char) :=
  match matchToksFull toks prev t with
  | some (caps, rest) => some (caps, t.take (t.length - rest.length))
  | none =>
    match t with
    | [] => none
    | c :: t2 => rsearch toks (some c) t2

/-- Search from the start of the text (`re.search` without anchors). -/
def research (toks : List RTok) (t : List Char) : Option (List (List Char) × List Char) :=
  rsearch toks none t

/-- Anchored match (`re.search` of a pattern beginning with `^`, without
`re.MULTILINE`: it can only match at the start of the string). -/
def rmatchStart (toks : List RTok) (t : List Char) : Bool :=
  (matchToksFull toks none t).isSome

/-- Python `text.split(chr(10))`: split on newline characters.  The result is
always nonempty and its elements contain no newline. -/
def splitLines : List Char → List (List Char)
  | [] => [[]]
  | c :: rest =>
    let r := splitLines rest
    if c = Char.ofNat 10 then [] :: r
    else
      match r with
      | [] => [[c]]
      | h :: t => (c :: h) :: t

/-- Python `(chr(10)).join(lines)`. -/
def joinLines : List (List Char) → List Char
  | [] => []
  | [l] => l
  | l :: ls => l ++ Char.ofNat 10 :: joinLines ls

/-- Built-in k6 metric names, from `K6Executor._clean_k6_script`
(src/backend/app/services/k6_executor.py lines 115–121). -/
def builtinMetrics : List (List Char) :=
  ["data_sent".data, "data_received".data, "http_req_duration".data, "http_reqs".data,
   "iterations".data, "vus".data, "http_req_failed".data, "http_req_waiting".data,
   "http_req_connecting".data, "http_req_tls_handshaking".data, "http_req_sending".data,
   "http_req_receiving".data, "http_req_blocked".data, "iteration_duration".data,
   "vus_max".data]

/-- Metric-constructor class names accepted by the cleaning patterns. -/
def metricTypes : List (List Char) :=
  ["Counter".data, "Trend".data, "Rate".data, "Gauge".data, "Metric".data]

/-- First-pass collection pattern of `_clean_k6_script` (executor line 134),
`(const|let|var)\s+(\w+)\s*=\s*new\s+(Counter|Trend|Rate|Gauge|Metric)\s*\(\s*[quote]metric[quote]`
with `re.IGNORECASE`; the single capture returned by the embedding is the
variable name (Python group 2). -/
def collectPat (metric : List Char) : List RTok :=
  [.alt true ["const".data, "let".data, "var".data], .ws1, .wordPlus, .ws,
   .lit false "=".data, .ws, .lit true "new".data, .ws1,
   .alt true metricTypes, .ws, .lit false "(".data, .ws,
   .quoteCls, .lit true metric, .quoteCls]

/-- Second-pass removal patterns of `_clean_k6_script` (executor lines
151–160), each paired with whether it is anchored at line start (`^`). -/
def declPats (metric : List Char) : List (Bool × List RTok) :=
  [(false, [.alt true ["const".data, "let".data, "var".data], .ws1, .wordPlus, .ws,
            .lit false "=".data, .ws, .lit true "new".data, .ws1,
            .alt true metricTypes, .ws, .lit false "(".data, .ws,
            .quoteCls, .lit true metric, .quoteCls, .ws, .lit false ")".data]),
   (true, [.ws, .lit true "new".data, .ws1, .lit true "Counter".data, .ws,
           .lit false "(".data, .ws, .quoteCls, .lit true metric, .quoteCls, .ws,
           .lit false ")".data]),
   (true, [.ws, .lit true "new".data, .ws1, .lit true "Trend".data, .ws,
           .lit false "(".data, .ws, .quoteCls, .lit true metric, .quoteCls, .ws,
           .lit false ")".data]),
   (true, [.ws, .lit true "new".data, .ws1, .lit true "Rate".data, .ws,
           .lit false "(".data, .ws, .quoteCls, .lit true metric, .quoteCls, .ws,
           .lit false ")".data]),
   (true, [.ws, .lit true "new".data, .ws1, .lit true "Gauge".data, .ws,
           .lit false "(".data, .ws, .quoteCls, .lit true metric, .quoteCls, .ws,
           .lit false ")".data]),
   (true, [.ws, .lit true "new".data, .ws1, .lit true "Metric".data, .ws,
           .lit false "(".data, .ws, .quoteCls, .lit true metric, .quoteCls])]

/-- Variable-use pattern of `_clean_k6_script` (executor line 176),
`\b var \s* \. \w+`, case-sensitive. -/
def varUsePat (v : List Char) : List RTok :=
  [.wb, .lit false v, .ws, .lit false ".".data, .wordPlus]

/-- Variables a single line declares with a built-in metric name
(first pass over one line; at most one variable per metric, as
`re.search` returns only the first match). -/
def collectLineVars (line : List Char) : List (List Char) :=
  builtinMetrics.filterMap (fun metric =>
    (research (collectPat metric) line).bind (fun r => r.1.head?))

/-- Whether a line matches one of the second-pass declaration-removal
patterns for some built-in metric. -/
def lineIsDecl (line : List Char) : Bool :=
  builtinMetrics.any (fun metric =>
    (declPats metric).any (fun p =>
      if p.1 then rmatchStart p.2 line else (research p.2 line).isSome))

/-- Whether a line uses the collected variable `v` via member access. -/
def lineUsesVar (v line : List Char) : Bool :=
  (research (varUsePat v) line).isSome

/-- Two-pass line filter of `K6Executor._clean_k6_script`: the first pass
collects the variables bound to re-declared built-in metrics across all
lines, the second drops declaration lines and lines that use a collected
variable. -/
def cleanLinesPass (lines : List (List Char)) : List (List Char) :=
  lines.filter (fun l => !(lineIsDecl l ||
    (lines.flatMap collectLineVars).any (fun v => lineUsesVar v l)))

/-- Embedding of `K6Executor._clean_k6_script` (executor lines 102–201):
split into lines, apply the two-pass filter, and re-join with newlines. -/
def clean_k6_script (script : List Char) : List Char :=
  joinLines (cleanLinesPass (splitLines script))

/-- String-level wrapper of `clean_k6_script`. -/
def cleanK6ScriptStr (s : String) : String :=
  String.mk (clean_k6_script s.data)

/-- Python `str.split()` helper: split on whitespace runs. -/
def splitWs : List Char → List (List Char)
  | [] => [[]]
  | c :: rest =>
    let r := splitWs rest
    if isSpaceCh c then [] :: r
    else
      match r with
      | [] => [[c]]
      | h :: t => (c :: h) :: t

/-- Python `(chr(32)).join(words)`. -/
def joinWords : List (List Char) → List Char
  | [] => []
  | [w] => w
  | w :: ws => w ++ ' ' :: joinWords ws

/-- Embedding of `K6TestGenerator._clean_requirement_text` (generator lines
19–49).  The function computes a list of protected URL/number spans but never
applies it; its effective behaviour is: replace newlines and carriage returns
by spaces, strip, and collapse whitespace runs to single spaces (Python
`(chr(32)).join(text.split())`). -/
def clean_requirement_text (text : List Char) : List Char :=
  let repl := text.map (fun c =>
    if c = Char.ofNat 10 || c = Char.ofNat 13 then ' ' else c)
  joinWords ((splitWs repl).filter (fun w => !w.isEmpty))

/-- Virtual-user patterns of `_extract_parameters_from_description`
(generator lines 208–219), tried in order, `re.IGNORECASE`. -/
def vuPatterns : List (List RTok) :=
  [[.digits, .ws, .lit true "并发用户".data],
   [.digits, .ws, .lit true "个用户".data],
   [.digits, .ws, .lit true "VU".data, .optChar true 's'],
   [.digits, .ws, .lit true "虚拟用户".data],
   [.digits, .ws, .lit true "用户并发".data],
   [.digits, .ws, .lit true "并发".data],
   [.lit true "并发".data, .ws, .digits],
   [.digits, .ws, .lit true "用户".data],
   [.lit true "到".data, .ws, .digits, .ws, .lit true "用户".data],
   [.lit true "加压到".data, .ws, .digits]]

/-- Compound "ramp up duration + intermediate target" patterns
(generator lines 233–238). -/
def rampUpWithTargetPatterns : List (List RTok) :=
  [[.digits, .ws, .optChar true 's', .ws, .lit true "加到".data, .ws, .digits, .ws,
    .lit true "用户".data],
   [.digits, .ws, .lit true "秒".data, .ws, .lit true "加到".data, .ws, .digits, .ws,
    .lit true "用户".data],
   [.digits, .ws, .optChar true 's', .ws, .lit true "内".data, .ws, .lit true "缓慢".data,
    .ws, .lit true "加压".data, .ws, .lit true "到".data, .ws, .digits],
   [.digits, .ws, .lit true "秒".data, .ws, .lit true "内".data, .ws, .lit true "缓慢".data,
    .ws, .lit true "加压".data, .ws, .lit true "到".data, .ws, .digits]]

/-- Plain ramp-up-duration patterns (generator lines 253–260). -/
def rampUpPatterns : List (List RTok) :=
  [[.digits, .ws, .optChar true 's', .ws, .lit true "加到".data, .ws, .digits],
   [.digits, .ws, .lit true "秒".data, .ws, .lit true "加到".data, .ws, .digits],
   [.digits, .ws, .optChar true 's', .ws, .lit true "内".data, .ws, .lit true "缓慢".data,
    .ws, .lit true "加压".data],
   [.digits, .ws, .lit true "秒".data, .ws, .lit true "内".data, .ws, .lit true "缓慢".data,
    .ws, .lit true "加压".data],
   [.lit true "缓慢".data, .ws, .lit true "加压".data, .lazyAny, .digits, .ws,
    .lit true "s".data],
   [.lit true "缓慢".data, .ws, .lit true "加压".data, .lazyAny, .digits, .ws,
    .lit true "秒".data]]

/-- Hold-duration patterns (generator lines 270–280). -/
def durationPatterns : List (List RTok) :=
  [[.lit true "持续".data, .ws, .lit true "运行".data, .ws, .digits, .ws, .lit true "秒".data],
   [.lit true "持续".data, .ws, .lit true "运行".data, .ws, .digits, .ws, .lit true "s".data],
   [.lit true "持续".data, .ws, .digits, .ws, .lit true "秒".data],
   [.digits, .ws, .lit true "秒".data, .ws, .lit true "持续".data],
   [.digits, .ws, .lit true "s".data, .wb],
   [.digits, .ws, .lit true "秒".data],
   [.lit true "持续".data, .ws, .digits, .ws, .lit true "分钟".data],
   [.digits, .ws, .lit true "分钟".data],
   [.digits, .ws, .lit true "m".data, .wb]]

/-- Ramp-down-duration patterns (generator lines 294–299). -/
def rampDownPatterns : List (List RTok) :=
  [[.digits, .ws, .optChar true 's', .ws, .lit true "内".data, .ws, .lit true "缓慢".data,
    .ws, .lit true "减少".data],
   [.digits, .ws, .lit true "秒".data, .ws, .lit true "内".data, .ws, .lit true "缓慢".data,
    .ws, .lit true "减少".data],
   [.digits, .ws, .optChar true 's', .ws, .lit true "内".data, .ws, .lit true "减少".data,
    .ws, .lit true "到".data, .ws, .lit true "0".data],
   [.digits, .ws, .lit true "秒".data, .ws, .lit true "内".data, .ws, .lit true "减少".data,
    .ws, .lit true "到".data, .ws, .lit true "0".data]]

/-- URL character class of the first URL pattern (generator line 313):
everything except whitespace, a closing parenthesis and CJK ideographs. -/
def urlCh1 (c : Char) : Bool := !(isSpaceCh c || c = ')' || isCJK c)

/-- URL character class of the second URL pattern (generator line 314). -/
def urlCh2 (c : Char) : Bool := !(isSpaceCh c || c = ')')

/-- URL patterns (generator lines 312–315); these are searched without
`re.IGNORECASE`. -/
def urlPatterns : List (List RTok) :=
  [[.lit false "http".data, .optChar false 's', .lit false "://".data, .plusCls urlCh1],
   [.lit false "http".data, .optChar false 's', .lit false "://".data, .plusCls urlCh2]]

/-- First pattern from a list that matches, with its captures and group 0. -/
def firstPatternMatch (pats : List (List RTok)) (t : List Char) :
    Option (List (List Char) × List Char) :=
  match pats with
  | [] => none
  | p :: ps =>
    match research p t with
    | some r => some r
    | none => firstPatternMatch ps t

/-- Extracted load-test parameters (the `params` dict of
`_extract_parameters_from_description`; a field is `none` when the
corresponding key is absent). -/
structure ExtractedParams where
  vus : Option Nat
  ramp_up_duration : Option String
  ramp_up_target : Option Nat
  duration : Option String
  ramp_down_duration : Option String
  url : Option String
deriving DecidableEq, Repr

/-- Python `str.rstrip(c)` for a single strip character. -/
def pyRstrip (c : Char) (s : List Char) : List Char :=
  (s.reverse.dropWhile (fun x => x = c)).reverse

/-- URL characters considered valid by the CJK-truncation loop of the URL
extraction (generator line 333): alphanumeric (Python `str.isalnum`,
modelled as ASCII alphanumerics plus CJK) or one of `. / - _ : ? = & #`. -/
def urlValidCh (c : Char) : Bool :=
  isAsciiAlpha c || isDigitCh c || isCJK c ||
  c = '.' || c = '/' || c = '-' || c = '_' || c = ':' || c = '?' || c = '=' || c = '&' || c = '#'

/-- CJK-truncation loop of the URL extraction (generator lines 332–335):
cut the URL just after its last valid character. -/
def truncateUrlAtLastValid (url : List Char) : List Char :=
  let rev := url.reverse
  let dropped := rev.dropWhile (fun c => !urlValidCh c)
  match dropped with
  | [] => url
  | _ => dropped.reverse

/-- Index of the first occurrence of `sub` in `t` (0 when absent; used only
with `sub` known to occur, namely the regex match). -/
def indexOfSub (t sub : List Char) : Nat :=
  match t with
  | [] => 0
  | _ :: rest => if isPrefixSeq sub t then 0 else indexOfSub rest sub + 1

/-- Embedding of the URL branch of `_extract_parameters_from_description`
(generator lines 311–340): find a URL, strip trailing punctuation, and
truncate when the character following the match is a CJK ideograph. -/
def extractUrl (t : List Char) : Option (List Char) :=
  match firstPatternMatch urlPatterns t with
  | none => none
  | some (_, g0) =>
    let url0 := pyRstrip '。' (pyRstrip ',' (pyRstrip '。' (pyRstrip '，' (pyRstrip ')' g0))))
    let idx := indexOfSub t g0
    let urlEnd := idx + g0.length
    let url :=
      match t.drop urlEnd with
      | nc :: _ => if isCJK nc then truncateUrlAtLastValid url0 else url0
      | [] => url0
    some url

/-- Render a natural number followed by a unit suffix (Python f-string
formatting of `int(...)`, which normalises leading zeros). -/
def durStr (n : Nat) (unit : String) : String := toString n ++ unit

/-- Embedding of `K6TestGenerator._extract_parameters_from_description`
(generator lines 198–343). -/
def extract_parameters_from_description (t : List Char) : ExtractedParams :=
  let vus := (firstPatternMatch vuPatterns t).bind (fun r =>
    (r.1.head?).map natOfDigits)
  let rampWithTarget := firstPatternMatch rampUpWithTargetPatterns t
  let (rampUp, rampTarget) :=
    match rampWithTarget with
    | some (c1 :: c2 :: _, _) =>
      (some (durStr (natOfDigits c1) "s"), some (natOfDigits c2))
    | _ =>
      match firstPatternMatch rampUpPatterns t with
      | some (c1 :: _, _) => (some (durStr (natOfDigits c1) "s"), none)
      | _ => (none, none)
  let duration := (firstPatternMatch durationPatterns t).bind (fun r =>
    (r.1.head?).map (fun ds =>
      let isMin := containsSeq r.2 "分钟".data || (r.2.map lowerCh).contains 'm'
      durStr (natOfDigits ds) (if isMin then "m" else "s")))
  let rampDown := (firstPatternMatch rampDownPatterns t).bind (fun r =>
    (r.1.head?).map (fun ds => durStr (natOfDigits ds) "s"))
  { vus := vus
    ramp_up_duration := rampUp
    ramp_up_target := rampTarget
    duration := duration
    ramp_down_duration := rampDown
    url := (extractUrl t).map String.mk }

/-- String-level wrapper of the parameter extractor. -/
def extractParams (s : String) : ExtractedParams :=
  extract_parameters_from_description s.data

/-- Python truthiness of an optional integer (`None` and `0` are falsy). -/
def truthyNat : Option Nat → Bool
  | some n => decide (n ≠ 0)
  | none => false

/-- Python truthiness of an optional string (`None` and the empty string are
falsy). -/
def truthyStr : Option String → Bool
  | some s => decide (s ≠ "")
  | none => false

/-- Condition under which `_generate_by_regex` (generator line 140) invokes
the LLM fallback extraction:
`not extracted_params.get(vus-key) or not extracted_params.get(duration-key)`.
A regex-extracted value of `0` is falsy and therefore indistinguishable from
an absent value here. -/
def needs_ai_fallback (p : ExtractedParams) : Bool :=
  !truthyNat p.vus || !truthyStr p.duration

/-- Partial parameters returned by the LLM fallback extraction (absent
fields are `none`). -/
structure AiParams where
  vus : Option Nat
  duration : Option String
  url : Option String
deriving DecidableEq, Repr

/-- LLM fallback that returned no fields (e.g. its JSON parse failed,
generator lines 385–387). -/
def aiParamsEmpty : AiParams := ⟨none, none, none⟩

/-- Python dict merge `{**extracted_params, **ai_extracted}` (generator line
145): fields present in the AI result override the regex result. -/
def mergeParams (regex : ExtractedParams) (ai : AiParams) : ExtractedParams :=
  { regex with
    vus := match ai.vus with | some v => some v | none => regex.vus
    duration := match ai.duration with | some d => some d | none => regex.duration
    url := match ai.url with | some u => some u | none => regex.url }

/-- Python `a or b` on optional integers: `b` when `a` is falsy. -/
def pyOrNat (a b : Option Nat) : Option Nat :=
  if truthyNat a then a else b

/-- Python `a or b` on optional strings. -/
def pyOrStr (a b : Option String) : Option String :=
  if truthyStr a then a else b

/-- Resolution of the final virtual-user count in `_build_generation_prompt`
(generator lines 403 and 413–414): `extracted or load_config or default 10`,
where both steps use Python truthiness, so an extracted `0` falls through to
the default. -/
def resolve_final_vus (extracted loadCfg : Option Nat) : Nat :=
  let fv := pyOrNat extracted loadCfg
  match fv with
  | some n => if n = 0 then 10 else n
  | none => 10

/-- Resolution of the final hold duration (generator lines 404 and 416–418). -/
def resolve_final_duration (extracted loadCfg : Option String) : String :=
  let fd := pyOrStr extracted loadCfg
  match fd with
  | some d => if d = "" then "30s" else d
  | none => "30s"

/-- Python `int` on the numeric prefix of a duration string with its final
unit character removed (`int(final_duration[:-1])`, generator lines 429/432;
faithful for the digit strings this code produces — on other strings the
original raises, which is not modelled). -/
def durNumPart (d : String) : Nat :=
  natOfDigits (d.data.dropLast.filter isDigitCh)

/-- Derivation of the ramp-up duration (generator lines 423–437): use the
extracted value when present; otherwise a keyword scan for gradual-ramp
markers chooses a slow ramp of `max(5, tenth-of-hold)` seconds and the
default is a 1-second ramp. -/
def derive_ramp_up_duration (description : List Char) (extracted : Option String)
    (finalDuration : String) : String :=
  match extracted with
  | some r => r
  | none =>
    if containsSeq description "缓慢".data || containsSeq description "逐步".data ||
       containsSeq description "渐进".data then
      if finalDuration.endsWith "s" then
        durStr (max 5 (durNumPart finalDuration / 10)) "s"
      else if finalDuration.endsWith "m" then
        durStr (max 5 (durNumPart finalDuration * 6)) "s"
      else "5s"
    else "1s"

/-- One load stage: duration string and target virtual users. -/
structure StageCfg where
  duration : String
  target : Nat
deriving DecidableEq, Repr

/-- Resolved prompt parameters of `_build_generation_prompt`. -/
structure PromptParams where
  final_vus : Nat
  final_duration : String
  final_url : Option String
  ramp_up_duration : String
  ramp_down_duration : String
  stages : List StageCfg
deriving DecidableEq, Repr

/-- Embedding of the parameter-resolution and stage-construction part of
`K6TestGenerator._build_generation_prompt` (generator lines 398–467): final
values resolve as `extracted or load_config or default`, the ramp-down
default is 1 second, and the stage sequence is three stages — split-ramp
when an intermediate ramp target is present, differs from the final target
and is truthy (Python `if ramp_up_target and ramp_up_target != final_vus`),
standard otherwise. -/
def build_prompt_params (description : List Char) (targetUrl : Option String)
    (loadVus : Option Nat) (loadDuration : Option String)
    (extracted : ExtractedParams) : PromptParams :=
  let finalVus := resolve_final_vus extracted.vus loadVus
  let finalDuration := resolve_final_duration extracted.duration loadDuration
  let finalUrl := pyOrStr extracted.url targetUrl
  let rampUp := derive_ramp_up_duration description extracted.ramp_up_duration finalDuration
  let rampDown :=
    match extracted.ramp_down_duration with
    | some r => if r = "" then "1s" else r
    | none => "1s"
  let stages :=
    match extracted.ramp_up_target with
    | some rt =>
      if rt ≠ 0 ∧ rt ≠ finalVus then
        [⟨rampUp, rt⟩, ⟨finalDuration, finalVus⟩, ⟨rampDown, 0⟩]
      else
        [⟨rampUp, finalVus⟩, ⟨finalDuration, finalVus⟩, ⟨rampDown, 0⟩]
    | none => [⟨rampUp, finalVus⟩, ⟨finalDuration, finalVus⟩, ⟨rampDown, 0⟩]
  { final_vus := finalVus
    final_duration := finalDuration
    final_url := finalUrl
    ramp_up_duration := rampUp
    ramp_down_duration := rampDown
    stages := stages }

/-- Python / JSON values as manipulated by the analysis and metrics code.
Numbers are modelled as integers (the claims under verification do not
exercise float payloads); dicts are insertion-ordered association lists
with distinct keys, as in Python. -/
inductive PyVal where
  | str (s : String)
  | int (n : Int)
  | bool (b : Bool)
  | none
  | list (xs : List PyVal)
  | dict (kvs : List (String × PyVal))

/-- Python `d.get(k)` on a dict given as its key-value list. -/
def pyGet (kvs : List (String × PyVal)) (k : String) : Option PyVal :=
  match kvs with
  | [] => Option.none
  | (k2, v) :: rest => if k2 = k then some v else pyGet rest k

/-- Python `k in d`. -/
def pyHasKey (kvs : List (String × PyVal)) (k : String) : Bool :=
  (pyGet kvs k).isSome

/-- Python `del d[k]` (for all listed keys; deleting an absent key is a
no-op here because the source guards each delete with `if field in ...`). -/
def pyDelKeys (kvs : List (String × PyVal)) (ks : List String) : List (String × PyVal) :=
  kvs.filter (fun kv => !ks.contains kv.1)

/-- Python `d.update(other)`: existing keys are overwritten in place,
new keys are appended in order. -/
def pyUpdate (kvs other : List (String × PyVal)) : List (String × PyVal) :=
  match other with
  | [] => kvs
  | (k, v) :: rest =>
    if pyHasKey kvs k then
      pyUpdate (kvs.map (fun kv => if kv.1 = k then (k, v) else kv)) rest
    else pyUpdate (kvs ++ [(k, v)]) rest

/-- Python truthiness of a value. -/
def pyTruthy : PyVal → Bool
  | .str s => decide (s ≠ "")
  | .int n => decide (n ≠ 0)
  | .bool b => b
  | .none => false
  | .list xs => !xs.isEmpty
  | .dict kvs => !kvs.isEmpty

/-- Allow-listed metric names of `_parse_k6_summary_json`
(executor lines 457–469). -/
def keyMetricNames : List String :=
  ["http_req_duration", "http_req_failed", "http_reqs", "iterations", "vus",
   "vus_max", "data_received", "data_sent", "http_req_waiting",
   "http_req_connecting", "iteration_duration"]

/-- Sort key of the `values`-map truncation (executor line 505):
`float(key)` when the key is a digit string, `0` otherwise (modelled over
naturals, exact for the digit-string keys the claim concerns). -/
def valuesSortKey (kv : String × PyVal) : Nat :=
  if isDigitStr kv.1.data then natOfDigits kv.1.data else 0

/-- Comparison relation used to sort a `values` map chronologically. -/
def valuesLe (a b : String × PyVal) : Prop := valuesSortKey a ≤ valuesSortKey b

instance : DecidableRel valuesLe := fun a b => Nat.decLe (valuesSortKey a) (valuesSortKey b)

/-- Embedding of the `values`-map bounding of `_parse_k6_summary_json`
(executor lines 500–508): maps with more than 10 entries are sorted by the
numeric value of their keys (a stable sort, matching Python `sorted`) and
only the last 10 entries are kept; smaller maps pass through unchanged. -/
def truncate_values_map (vs : List (String × PyVal)) : List (String × PyVal) :=
  if 10 < vs.length then
    (List.insertionSort valuesLe vs).drop (vs.length - 10)
  else vs

/-- Aggregate fields copied through by `_parse_k6_summary_json`
(executor lines 478–497): source key paired with output key. -/
def aggFieldKeys : List (String × String) :=
  [("count", "count"), ("sum", "sum"), ("rate", "rate"), ("min", "min"),
   ("max", "max"), ("avg", "avg"), ("med", "med"),
   ("p(90)", "p90"), ("p(95)", "p95"), ("p(99)", "p99")]

/-- Embedding of the per-metric normalisation of `_parse_k6_summary_json`
(executor lines 473–510): copy present aggregate fields, then bound the
`values` map.  Non-dict metric payloads are normalised to an empty
aggregate (in the source such a payload raises inside the `try` block and
the partial result is returned; the claims do not exercise this). -/
def parse_one_metric (metricData : PyVal) : PyVal :=
  match metricData with
  | .dict md =>
    let fields := aggFieldKeys.filterMap (fun kk =>
      (pyGet md kk.1).map (fun v => (kk.2, v)))
    let withValues :=
      match pyGet md "values" with
      | some (.dict vs) => fields ++ [("values", PyVal.dict (truncate_values_map vs))]
      | _ => fields
    .dict withValues
  | _ => .dict []

/-- Embedding of `K6Executor._parse_k6_summary_json` (executor lines
448–524): normalise each allow-listed metric found in the summary and echo
the root group when present. -/
def parse_k6_summary_json (summaryData : PyVal) : List (String × PyVal) :=
  match summaryData with
  | .dict sd =>
    let metrics :=
      match pyGet sd "metrics" with
      | some (.dict km) =>
        keyMetricNames.filterMap (fun name =>
          (pyGet km name).map (fun md => (name, parse_one_metric md)))
      | _ => []
    let withRoot :=
      match pyGet sd "root_group" with
      | some (.dict rg) =>
        metrics ++ [("root_group", PyVal.dict
          [("checks", (pyGet rg "checks").getD (.dict [])),
           ("http_reqs", (pyGet rg "http_reqs").getD (.dict [])),
           ("http_req_duration", (pyGet rg "http_req_duration").getD (.dict []))])]
      | _ => metrics
    withRoot
  | _ => []

/-- Outcome of one possible run of the k6 subprocess and summary-file read,
the environment interaction of `K6Executor.execute`: the subprocess either
completes with an exit code and captured streams, expires its 1-hour
timeout (`subprocess.TimeoutExpired`), or launching it raises.  When it
completes, the summary file is either absent, unparsable (with the
exception text), or parses to a JSON value. -/
inductive K6RunOutcome where
  | completes (exitCode : Int) (stdout stderr : String)
      (summaryFile : Option (Except String PyVal))
  | timesOut
  | raises (msg : String)

/-- Result dictionary produced by `K6Executor.execute`.  Absent keys are
`none` (the timeout and error paths build a dict without `exit_code`,
`stdout`, `stderr`, `summary` or `metrics`).  `cleanup_ran` records that
the `finally` block deleting the temporary script file and directory
executed; it is `true` on every path.  The `summary` value is `Except.ok`
for a parsed summary and `Except.error` for the error-dict the source
stores when the file is absent or unparsable. -/
structure ExecutionResult where
  status : String
  exit_code : Option Int
  stdout : Option String
  stderr : Option String
  error : Option String
  summary : Option (Except String PyVal)
  metrics : Option (List (String × PyVal))
  executed_at : String
  temp_script_written : String
  cleanup_ran : Bool

/-- Exit-code-to-status mapping of `K6Executor.execute` (executor lines
292–303): `0` and the threshold-failure code `99` yield `completed`; `1`
and every other exit code yield `failed`. -/
def status_of_exit_code (rc : Int) : String :=
  if rc = 0 then "completed"
  else if rc = 99 then "completed"
  else if rc = 1 then "failed"
  else "failed"

/-- Embedding of `K6Executor.execute` (executor lines 203–396) as a function
of the subprocess outcome.  The script is cleaned and written to a fresh
temporary file before the `try` block (not part of the result); `now`
stands for `datetime.utcnow().isoformat()`.  The `try/except/finally`
structure becomes a total function: the timeout and exception handlers
return the dedicated result dicts, and `cleanup_ran` models the `finally`
block, which runs on every path.  The source never lets an exception
escape to the caller, which the totality of this function mirrors. -/
def k6_execute (script : String) (run : K6RunOutcome) (now : String) : ExecutionResult :=
  let written := cleanK6ScriptStr script
  match run with
  | .timesOut =>
    { status := "timeout", exit_code := none, stdout := none, stderr := none
      error := some "k6 执行超时（超过1小时）", summary := none, metrics := none
      executed_at := now, temp_script_written := written, cleanup_ran := true }
  | .raises msg =>
    { status := "error", exit_code := none, stdout := none, stderr := none
      error := some msg, summary := none, metrics := none
      executed_at := now, temp_script_written := written, cleanup_ran := true }
  | .completes rc out err file =>
    let st := status_of_exit_code rc
    let errField :=
      if rc ≠ 0 ∧ err ≠ "" ∧ st = "failed" then some (String.mk (err.data.take 1000))
      else none
    let summaryField : Option (Except String PyVal) :=
      match file with
      | Option.none => some (Except.error "汇总JSON文件不存在")
      | some (Except.error e) => some (Except.error e)
      | some (Except.ok data) => some (Except.ok data)
    let metricsField :=
      match file with
      | some (Except.ok data) => some (parse_k6_summary_json data)
      | _ => none
    { status := st, exit_code := some rc, stdout := some out, stderr := some err
      error := errField, summary := summaryField, metrics := metricsField
      executed_at := now, temp_script_written := written, cleanup_ran := true }

/-- Python `repr` of a value (single-quoted strings; string escape
sequences are not modelled — the parsers below likewise reject strings
containing a backslash, keeping the model partial rather than wrong).
The fuel bounds nesting depth and is never exhausted on the inputs of
this development. -/
def pyReprF : Nat → PyVal → String
  | _, .str s => sqs ++ s ++ sqs
  | _, .int n => toString n
  | _, .bool true => "True"
  | _, .bool false => "False"
  | _, .none => "None"
  | 0, .list _ => ""
  | 0, .dict _ => ""
  | fuel + 1, .list xs =>
    "[" ++ String.intercalate ", " (xs.map (pyReprF fuel)) ++ "]"
  | fuel + 1, .dict kvs =>
    "\x7b" ++ String.intercalate ", "
      (kvs.map (fun kv => sqs ++ kv.1 ++ sqs ++ ": " ++ pyReprF fuel kv.2)) ++ "\x7d"

/-- Python `str()` of a value, as used by f-string interpolation: strings
are rendered without quotes, containers via `repr`. -/
def pyFStr : PyVal → String
  | .str s => s
  | v => pyReprF 100 v

/-- Drop leading whitespace (used by the literal parsers). -/
def skipWs (cs : List Char) : List Char := cs.dropWhile isSpaceCh

/-- Python `str.strip()`. -/
def pyStripWs (cs : List Char) : List Char :=
  ((cs.dropWhile isSpaceCh).reverse.dropWhile isSpaceCh).reverse

/-- Scan a quoted string body up to the closing quote `q`.  Escape
sequences are not modelled: a backslash makes the scan fail, so inputs
relying on escapes fall outside the modelled domain instead of being
parsed differently from Python. -/
def scanStr (q : Char) : List Char → Option (List Char × List Char)
  | [] => none
  | c :: rest =>
    if c = q then some ([], rest)
    else if c = Char.ofNat 92 then none
    else (scanStr q rest).map (fun r => (c :: r.1, r.2))

/-- Parse an optionally signed integer literal. -/
def parseIntLit (cs : List Char) : Option (Int × List Char) :=
  match cs with
  | '-' :: rest =>
    let ds := rest.takeWhile isDigitCh
    if ds.isEmpty then none
    else some (-(natOfDigits ds : Int), rest.drop ds.length)
  | _ =>
    let ds := cs.takeWhile isDigitCh
    if ds.isEmpty then none
    else some ((natOfDigits ds : Int), cs.drop ds.length)

mutual

/-- Recursive-descent parser for the literal subset handled by this
development.  With `py := true` it models `ast.literal_eval` (single- or
double-quoted strings, `True` / `False` / `None`), with `py := false` it
models `json.loads` (double-quoted strings, `true` / `false` / `null`).
Numbers are modelled as integers and escape sequences are rejected, so
the model is partial on floats and escaped strings rather than divergent.
The fuel bounds recursion depth and is never exhausted here. -/
def parseLitVal (py : Bool) : Nat → List Char → Option (PyVal × List Char)
  | 0, _ => none
  | fuel + 1, cs0 =>
    let cs := skipWs cs0
    match cs with
    | [] => none
    | c :: rest =>
      if c = '{' then
        match skipWs rest with
        | '}' :: r2 => some (.dict [], r2)
        | r => (parseLitEntries py fuel r).map (fun p => (.dict p.1, p.2))
      else if c = '[' then
        match skipWs rest with
        | ']' :: r2 => some (.list [], r2)
        | r => (parseLitItems py fuel r).map (fun p => (.list p.1, p.2))
      else if (py && c = sq) || c = dq then
        (scanStr c rest).map (fun p => (.str (String.mk p.1), p.2))
      else if py && isPrefixSeq "True".data cs then
        some (.bool true, cs.drop 4)
      else if py && isPrefixSeq "False".data cs then
        some (.bool false, cs.drop 5)
      else if py && isPrefixSeq "None".data cs then
        some (.none, cs.drop 4)
      else if !py && isPrefixSeq "true".data cs then
        some (.bool true, cs.drop 4)
      else if !py && isPrefixSeq "false".data cs then
        some (.bool false, cs.drop 5)
      else if !py && isPrefixSeq "null".data cs then
        some (.none, cs.drop 4)
      else
        (parseIntLit cs).map (fun p => (.int p.1, p.2))

/-- Parse the entries of a nonempty dict literal, starting after the
opening brace.  Keys are restricted to string literals (the payloads the
claims concern; other key kinds are outside the modelled domain). -/
def parseLitEntries (py : Bool) : Nat → List Char → Option (List (String × PyVal) × List Char)
  | 0, _ => none
  | fuel + 1, cs =>
    match skipWs cs with
    | q :: rest =>
      if (py && q = sq) || q = dq then
        (scanStr q rest).bind (fun kp =>
          match skipWs kp.2 with
          | ':' :: r2 =>
            (parseLitVal py fuel r2).bind (fun vp =>
              match skipWs vp.2 with
              | ',' :: r4 =>
                (parseLitEntries py fuel r4).map (fun ep =>
                  ((String.mk kp.1, vp.1) :: ep.1, ep.2))
              | '}' :: r4 => some ([(String.mk kp.1, vp.1)], r4)
              | _ => none)
          | _ => none)
      else none
    | [] => none

/-- Parse the items of a nonempty list literal, starting after the
opening bracket. -/
def parseLitItems (py : Bool) : Nat → List Char → Option (List PyVal × List Char)
  | 0, _ => none
  | fuel + 1, cs =>
    (parseLitVal py fuel cs).bind (fun vp =>
      match skipWs vp.2 with
      | ',' :: r2 =>
        (parseLitItems py fuel r2).map (fun ip => (vp.1 :: ip.1, ip.2))
      | ']' :: r2 => some ([vp.1], r2)
      | _ => none)

end

/-- Embedding of `ast.literal_eval` on the modelled literal subset: the
whole string (up to surrounding whitespace) must parse. -/
def py_literal_eval (s : String) : Option PyVal :=
  match parseLitVal true 1000 s.data with
  | some (v, rest) => if (skipWs rest).isEmpty then some v else Option.none
  | none => none

/-- Embedding of `json.loads` on the modelled subset. -/
def json_loads (s : String) : Option PyVal :=
  match parseLitVal false 1000 s.data with
  | some (v, rest) => if (skipWs rest).isEmpty then some v else Option.none
  | none => none

/-- Python `str.replace` (leftmost, non-overlapping), with structural fuel;
each step consumes at least one character, so fuel equal to the text
length suffices. -/
def replaceSeqF (needle repl : List Char) : Nat → List Char → List Char
  | 0, l => l
  | _ + 1, [] => []
  | fuel + 1, c :: t =>
    if needle.isEmpty then c :: t
    else if isPrefixSeq needle (c :: t) then
      repl ++ replaceSeqF needle repl fuel (t.drop (needle.length - 1))
    else c :: replaceSeqF needle repl fuel t

/-- Python `str.replace` (leftmost, non-overlapping). -/
def replaceSeq (needle repl l : List Char) : List Char :=
  replaceSeqF needle repl l.length l

/-- Quote-and-token normalisation applied before the JSON fallback parse
(analysis service lines 299–301): single quotes become double quotes and
the Python tokens `True` / `False` / `None` become their JSON spellings. -/
def normalize_for_json (s : String) : String :=
  String.mk (replaceSeq "None".data "null".data
    (replaceSeq "False".data "false".data
      (replaceSeq "True".data "true".data
        (replaceSeq [sq] [dq] s.data))))

/-- Embedding of the cascading string-parse strategy of
`K6AnalysisService.analyze_performance_results` (analysis service lines
280–328): first `ast.literal_eval`, then `json.loads` after quote/token
normalisation, then `ast.literal_eval` of the stripped string when it is
brace-delimited, and finally the `raw_analysis` wrapper dict. -/
def parse_analysis_string (s : String) : PyVal :=
  match py_literal_eval s with
  | some v => v
  | Option.none =>
    match json_loads (normalize_for_json s) with
    | some v => v
    | Option.none =>
      let cleaned := pyStripWs s.data
      if cleaned.head? = some '{' ∧ cleaned.getLast? = some '}' then
        match py_literal_eval (String.mk cleaned) with
        | some v => v
        | Option.none => .dict [("raw_analysis", .str s)]
      else .dict [("raw_analysis", .str s)]

/-- Key-to-Chinese translation map of `_format_as_markdown` (analysis
service lines 1168–1209).  The source dict literal lists `error_rate`
twice; Python keeps the later entry, so the map below carries only it. -/
def keyToChinese : List (String × String) :=
  [("total_requests", "总请求数"), ("request_rate", "请求速率 (req/s)"),
   ("failure_rate", "失败率 (%)"), ("avg_response_time", "平均响应时间 (ms)"),
   ("max_response_time", "最大响应时间 (ms)"), ("p95_response_time", "P95响应时间 (ms)"),
   ("p90_response_time", "P90响应时间 (ms)"), ("concurrent_users", "并发用户数"),
   ("virtual_users", "虚拟用户数"), ("iterations", "迭代次数"),
   ("distribution", "响应时间分布"), ("outliers", "异常值分析"),
   ("trend", "趋势分析"), ("percentile_analysis", "百分位分析"),
   ("issues", "问题分析"), ("throughput_evaluation", "吞吐量评估"),
   ("concurrent_capability", "并发处理能力"), ("concurrency_capability", "并发处理能力"),
   ("resource_utilization", "资源利用率"), ("error_rate", "错误率"),
   ("stability_evaluation", "稳定性评估"), ("system_stability", "系统稳定性"),
   ("abnormal_conditions", "异常情况"), ("performance_risks", "性能风险"),
   ("potential_issues", "潜在问题"), ("early_warnings", "预警信息"),
   ("capacity_warning", "容量警告"), ("critical_concerns", "关键关注点"),
   ("current_capacity", "当前容量"), ("recommended_capacity", "推荐容量"),
   ("scaling_recommendations", "扩展建议"), ("scaling_strategy", "扩展策略"),
   ("capacity_targets", "容量目标")]

/-- ASCII upper-casing of a character. -/
def upperCh (c : Char) : Char :=
  if decide (97 ≤ c.toNat) && decide (c.toNat ≤ 122) then Char.ofNat (c.toNat - 32) else c

/-- Python `str.title()` restricted to ASCII letters: the first letter of
every letter run is upper-cased, the rest lower-cased. -/
def pyTitle (cs : List Char) : List Char :=
  (cs.foldl (fun acc c =>
    let prevAlpha := acc.1
    let out := acc.2
    if isAsciiAlpha c then
      (true, (if prevAlpha then lowerCh c else upperCh c) :: out)
    else (false, c :: out)) (false, [])).2.reverse

/-- Python `str.lower()` restricted to ASCII. -/
def pyLower (s : String) : String := String.mk (s.data.map lowerCh)

/-- The `get_chinese_key` helper of `_format_as_markdown` (analysis service
lines 1211–1217): Chinese keys pass through, known English keys are
translated, anything else is underscore-split and title-cased. -/
def getChineseKey (k : String) : String :=
  if k.data.any isCJK then k
  else
    match pyGet (keyToChinese.map (fun p => (p.1, PyVal.str p.2))) k with
    | some (.str v) => v
    | _ => String.mk (pyTitle (replaceSeq "_".data " ".data k.data))

/-- Python `f-string` rendering of an integer with three fixed decimals. -/
def fmtFixed3 (n : Int) : String := toString n ++ ".000"

/-- Python `f-string` rendering of `n / 1000` with three fixed decimals
(exact for integer inputs). -/
def fmtDiv1000Fixed3 (n : Int) : String :=
  let sign := if n < 0 then "-" else ""
  let a := n.natAbs
  let q := a / 1000
  let r := a % 1000
  let rs := toString r
  let pad := String.mk (List.replicate (3 - rs.length) '0') ++ rs
  sign ++ toString q ++ "." ++ pad

/-- Python `f-string` rendering of `n * 100` with one fixed decimal. -/
def fmtMul100Fixed1 (n : Int) : String := toString (n * 100) ++ ".0"

/-- Python `f-string` rendering of an integer with two fixed decimals. -/
def fmtFixed2 (n : Int) : String := toString n ++ ".00"

/-- Python `f-string` thousands formatting of an integer. -/
def fmtThousands (n : Int) : String :=
  let sign := if n < 0 then "-" else ""
  let ds := (toString n.natAbs).data
  let groups := ((ds.reverse.toChunks 3).map List.reverse).reverse.map String.mk
  sign ++ String.intercalate "," groups

/-- Value formatting of `_format_as_markdown_table` (analysis service
lines 85–115): strings pass through; numbers are formatted according to
keyword matches on the key; anything else is `str()`-rendered. -/
def formatTableValue (k : String) (v : PyVal) : String :=
  match v with
  | .str s => s
  | .int n =>
    if containsSeq (pyLower k).data "response_time".data || containsSeq k.data "响应时间".data then
      if 1000 < n then fmtDiv1000Fixed3 n ++ " s"
      else fmtFixed3 n ++ " s"
    else if containsSeq (pyLower k).data "rate".data || containsSeq k.data "速率".data then
      if containsSeq (pyLower k).data "error".data || containsSeq (pyLower k).data "failure".data ||
         containsSeq k.data "失败".data || containsSeq k.data "错误".data then
        fmtMul100Fixed1 n ++ "%"
      else fmtFixed2 n ++ " req/s"
    else if containsSeq (pyLower k).data "count".data || containsSeq k.data "总数".data ||
            containsSeq k.data "次数".data || containsSeq k.data "请求数".data then
      fmtThousands n
    else if containsSeq k.data "用户数".data || containsSeq (pyLower k).data "vus".data ||
            containsSeq k.data "并发".data then
      toString n
    else pyFStr (.int n)
  | other => pyFStr other

/-- Python `sep.join(parts)`. -/
def joinStrSep (sep : String) : List String → String
  | [] => ""
  | [x] => x
  | x :: xs => x ++ sep ++ joinStrSep sep xs

/-- Embedding of `K6AnalysisService._format_as_markdown_table` (analysis
service lines 62–141): a three-row JMeter-style table — translated metric
names, a dashed separator sized to each header cell, and the formatted
values. -/
def format_as_markdown_table (data : List (String × PyVal)) (tr : String → String) :
    List String :=
  if data.isEmpty then []
  else
    let cells := data.map (fun kv => (tr kv.1, formatTableValue kv.1 kv.2))
    let header := "| " ++ String.intercalate " | " (cells.map (·.1)) ++ " |"
    let sep := "| " ++ String.intercalate " | "
      (cells.map (fun c => String.mk (List.replicate c.1.data.length '-'))) ++ " |"
    let dataRow := "| " ++ String.intercalate " | " (cells.map (·.2)) ++ " |"
    [header, sep, dataRow]

/-- Value of a two-key section lookup `analysis_data.get(en) or
analysis_data.get(zh)` combined with the truthiness guard `if value:`. -/
def sectionVal (ad : List (String × PyVal)) (k1 k2 : String) : Option PyVal :=
  match pyGet ad k1 with
  | some v => if pyTruthy v then some v else
    match pyGet ad k2 with
    | some w => if pyTruthy w then some w else Option.none
    | Option.none => Option.none
  | Option.none =>
    match pyGet ad k2 with
    | some w => if pyTruthy w then some w else Option.none
    | Option.none => Option.none

/-- Rating-to-emoji map of the performance-rating section (analysis
service lines 1277–1283). -/
def ratingEmoji (v : PyVal) : String :=
  match v with
  | .str "优秀" => "🟢"
  | .str "良好" => "🟡"
  | .str "一般" => "🟠"
  | .str "较差" => "🔴"
  | .str "差" => "🔴"
  | _ => "📊"

/-- Render a section whose dict values are shown as bold bullet lines and
whose nested dict/list values the source renders via `json.dumps`
(analysis service lines 1307–1316 and 1336–1345); the dumps rendering is
not modelled, so such values make the whole rendering unavailable. -/
def renderDictSectionStrict (vals : List (String × PyVal)) : Option (List String) :=
  match vals with
  | [] => some []
  | (k, v) :: rest =>
    match v with
    | .dict _ => Option.none
    | .list _ => Option.none
    | other =>
      (renderDictSectionStrict rest).map (fun ls =>
        ("- **" ++ getChineseKey k ++ "**: " ++ pyFStr other) :: ls)

/-- Render a section whose dict values are all shown via f-string
interpolation (throughput and capacity sections, analysis service lines
1323–1328 and 1431–1436). -/
def renderDictSectionPlain (vals : List (String × PyVal)) : List String :=
  vals.map (fun kv => "- **" ++ getChineseKey kv.1 ++ "**: " ++ pyFStr kv.2)

/-- Priority / suggestion extraction shared by the recommendation
renderers: `rec.get(priority-keys) or ""` and the suggestion key chain.
A non-string priority would make the source raise on `.lower()`; such
payloads are outside the modelled domain (`none`). -/
def recPriority (rec : List (String × PyVal)) (k1 k2 : String) : Option String :=
  let p :=
    match sectionVal rec k1 k2 with
    | some v => v
    | Option.none => .str ""
  match p with
  | .str s => some s
  | _ => Option.none

/-- Suggestion lookup chain `rec.get(a) or rec.get(b) or rec.get(c, "")`. -/
def recSuggestion (rec : List (String × PyVal)) (k1 k2 k3 : String) : PyVal :=
  match sectionVal rec k1 k2 with
  | some v => v
  | Option.none =>
    match sectionVal rec k3 k3 with
    | some v => v
    | Option.none => .str ""

/-- Priority emoji map (analysis service lines 1368–1372). -/
def priorityEmoji (p : String) : String :=
  match pyLower p with
  | "high" => "🔴"
  | "medium" => "🟡"
  | "low" => "🟢"
  | _ => "•"

/-- Priority Chinese name map (analysis service line 1375). -/
def priorityCn (p : String) : String :=
  match pyLower p with
  | "high" => "高"
  | "medium" => "中"
  | "low" => "低"
  | _ => p

/-- Rewriting of a dict-shaped suggestion string (analysis service lines
1359–1366): when the suggestion is a string whose stripped form starts
with a brace, a successful `ast.literal_eval` to a dict replaces it by
`parsed.get(recommendation-key, parsed.get(suggestion-key, original))`. -/
def resolveSuggestion (s0 : PyVal) : PyVal :=
  match s0 with
  | .str s =>
    if (pyStripWs s.data).head? = some '{' then
      match py_literal_eval s with
      | some (.dict p) =>
        (match pyGet p "recommendation" with
         | some v => v
         | Option.none =>
           match pyGet p "suggestion" with
           | some v => v
           | Option.none => .str s)
      | _ => .str s
    else .str s
  | v => v

/-- Render one dict-shaped recommendation (analysis service lines
1354–1376). -/
def renderRecDict (i : Nat) (rec : List (String × PyVal)) : Option (List String) :=
  (recPriority rec "priority" "优先级").map (fun priority =>
    let suggestion := resolveSuggestion (recSuggestion rec "suggestion" "recommendation" "建议内容")
    let line := toString i ++ ". " ++ priorityEmoji priority ++ " **" ++ pyFStr suggestion ++ "**\n"
    if priority ≠ "" then [line, "   - 优先级: " ++ priorityCn priority ++ "\n"]
    else [line])

/-- Render one recommendation entry (dict, parseable dict-string, plain
string, or skipped other type; analysis service lines 1353–1401). -/
def renderRecItem (i : Nat) (rec : PyVal) : Option (List String) :=
  match rec with
  | .dict r => renderRecDict i r
  | .str s =>
    if (pyStripWs s.data).head? = some '{' then
      match py_literal_eval s with
      | some (.dict p) =>
        (recPriority p "priority" "优先级").map (fun priority =>
          let suggestion := recSuggestion p "recommendation" "suggestion" "建议内容"
          let line := toString i ++ ". " ++ priorityEmoji priority ++ " **" ++ pyFStr suggestion ++ "**\n"
          if priority ≠ "" then [line, "   - 优先级: " ++ priorityCn priority ++ "\n"]
          else [line])
      | _ => some [toString i ++ ". " ++ s ++ "\n"]
    else some [toString i ++ ". " ++ s ++ "\n"]
  | _ => some []

/-- Render the recommendation list with 1-based indices. -/
def renderRecList (i : Nat) (recs : List PyVal) : Option (List String) :=
  match recs with
  | [] => some []
  | r :: rest =>
    (renderRecItem i r).bind (fun ls =>
      (renderRecList (i + 1) rest).map (fun ls2 => ls ++ ls2))

/-- Render the risk-assessment section (analysis service lines 1411–1421):
list values become a sub-heading with plain bullets, dict values the
source renders via `json.dumps` (not modelled), other values a bold
bullet line. -/
def renderRiskSection (vals : List (String × PyVal)) : Option (List String) :=
  match vals with
  | [] => some []
  | (k, v) :: rest =>
    match v with
    | .list items =>
      (renderRiskSection rest).map (fun ls =>
        ("### " ++ getChineseKey k ++ "\n") ::
        (items.map (fun it => "- " ++ pyFStr it)) ++ ls)
    | .dict _ => Option.none
    | other =>
      (renderRiskSection rest).map (fun ls =>
        ("- **" ++ getChineseKey k ++ "**: " ++ pyFStr other) :: ls)

/-- Rendering of one markdown section: the produced lines (empty when the
section is inactive) together with whether it counted towards
`content_sections_added`. -/
def sectionLines (header : String) (body : Option (List String)) : Option (List String × Bool) :=
  match body with
  | some ls => some (header :: ls ++ ["\n"], true)
  | Option.none => Option.none

/-- Embedding of `K6AnalysisService._format_as_markdown` (analysis service
lines 1151–1963) on its structured path: the report header and test/project
information, then the eight structured sections (rating, key-metrics table,
response time, throughput, stability, recommendations, risk, capacity).
The no-structured-content fallbacks (source sections 9–11, lines
1439–1958), which run only when none of the eight sections was rendered,
are not modelled: in that case, and when a section value needs the
unmodelled `json.dumps` rendering, the result is `none` and theorems stay
on the modelled domain.  The `k6_metrics` argument of the source feeds
only that unmodelled fallback and is therefore omitted here. -/
def format_as_markdown (ad : List (String × PyVal)) (testName testDescription testRequirement projectName projectDescription : String) : Option String :=
  let headParts : List String :=
    ["# 📊 性能测试分析报告\n", "\n"] ++
    (if projectName ≠ "" then
      ["## 📁 项目信息\n", "- **项目名称**: " ++ projectName] ++
      (if projectDescription ≠ "" then ["- **项目描述**: " ++ projectDescription] else []) ++
      ["\n"]
     else []) ++
    ["## 🧪 测试信息\n"] ++
    (if testName ≠ "" then ["- **测试名称**: " ++ testName] else []) ++
    (if testDescription ≠ "" then ["- **测试描述**: " ++ testDescription] else []) ++
    (if testRequirement ≠ "" then ["- **测试需求**: " ++ testRequirement] else []) ++
    ["\n", "---\n", "\n"]
  let sec1 : Option (List String × Bool) :=
    match sectionVal ad "performance_rating" "性能评级" with
    | some v => some (["## " ++ ratingEmoji v ++ " 性能评估\n",
                       "**整体评级**: " ++ pyFStr v ++ "\n", "\n"], true)
    | Option.none => some ([], false)
  let sec2 : Option (List String × Bool) :=
    match sectionVal ad "key_metrics_summary" "关键指标摘要" with
    | some (.dict d) =>
      some ("## 📈 关键指标摘要\n" :: format_as_markdown_table d getChineseKey ++ ["\n"], true)
    | some (.str s) => some (["## 📈 关键指标摘要\n", s, "\n"], true)
    | some _ => some (["## 📈 关键指标摘要\n", "\n"], true)
    | Option.none => some ([], false)
  let sec3 : Option (List String × Bool) :=
    match sectionVal ad "response_time_analysis" "响应时间分析" with
    | some (.dict d) => sectionLines "## ⏱️ 响应时间分析\n" (renderDictSectionStrict d)
    | some (.str s) => some (["## ⏱️ 响应时间分析\n", s, "\n"], true)
    | some _ => some (["## ⏱️ 响应时间分析\n", "\n"], true)
    | Option.none => some ([], false)
  let sec4 : Option (List String × Bool) :=
    match sectionVal ad "throughput_analysis" "吞吐量分析" with
    | some (.dict d) => some ("## 🚀 吞吐量分析\n" :: renderDictSectionPlain d ++ ["\n"], true)
    | some (.str s) => some (["## 🚀 吞吐量分析\n", s, "\n"], true)
    | some _ => some (["## 🚀 吞吐量分析\n", "\n"], true)
    | Option.none => some ([], false)
  let sec5 : Option (List String × Bool) :=
    match sectionVal ad "stability_analysis" "稳定性分析" with
    | some (.dict d) => sectionLines "## 🔒 稳定性分析\n" (renderDictSectionStrict d)
    | some (.str s) => some (["## 🔒 稳定性分析\n", s, "\n"], true)
    | some _ => some (["## 🔒 稳定性分析\n", "\n"], true)
    | Option.none => some ([], false)
  let sec6 : Option (List String × Bool) :=
    match sectionVal ad "optimization_recommendations" "优化建议" with
    | some (.list recs) => sectionLines "## 💡 优化建议\n" (renderRecList 1 recs)
    | some (.str s) => some (["## 💡 优化建议\n", s, "\n"], true)
    | some _ => some (["## 💡 优化建议\n", "\n"], true)
    | Option.none => some ([], false)
  let sec7 : Option (List String × Bool) :=
    match sectionVal ad "risk_assessment" "风险评估" with
    | some (.dict d) => sectionLines "## ⚠️ 风险评估\n" (renderRiskSection d)
    | some (.str s) => some (["## ⚠️ 风险评估\n", s, "\n"], true)
    | some _ => some (["## ⚠️ 风险评估\n", "\n"], true)
    | Option.none => some ([], false)
  let sec8 : Option (List String × Bool) :=
    match sectionVal ad "capacity_planning" "容量规划" with
    | some (.dict d) => some ("## 📋 容量规划建议\n" :: renderDictSectionPlain d ++ ["\n"], true)
    | some (.str s) => some (["## 📋 容量规划建议\n", s, "\n"], true)
    | some _ => some (["## 📋 容量规划建议\n", "\n"], true)
    | Option.none => some ([], false)
  match sec1, sec2, sec3, sec4, sec5, sec6, sec7, sec8 with
  | some s1, some s2, some s3, some s4, some s5, some s6, some s7, some s8 =>
    if s1.2 || s2.2 || s3.2 || s4.2 || s5.2 || s6.2 || s7.2 || s8.2 then
      some (joinStrSep "\n"
        (headParts ++ s1.1 ++ s2.1 ++ s3.1 ++ s4.1 ++ s5.1 ++ s6.1 ++ s7.1 ++ s8.1))
    else Option.none
  | _, _, _, _, _, _, _, _ => Option.none

/-- Key-metrics echo dict built by `_format_analysis_result` (analysis
service lines 1053–1059 and 1069–1075). -/
def keyMetricsEcho (k6Metrics : List (String × PyVal)) : PyVal :=
  .dict [("http_req_duration", (pyGet k6Metrics "http_req_duration").getD (.dict [])),
         ("http_req_failed", (pyGet k6Metrics "http_req_failed").getD (.dict [])),
         ("http_reqs", (pyGet k6Metrics "http_reqs").getD (.dict [])),
         ("iterations", (pyGet k6Metrics "iterations").getD (.dict [])),
         ("vus", (pyGet k6Metrics "vus").getD (.dict []))]

/-- Fields stripped from parsed analysis data before rendering
(analysis service lines 1110–1113; the set at lines 387–390 is the same). -/
def excludedFields : List String :=
  ["requirement_text", "Requirement Text", "Status", "status",
   "test_focus", "filename", "Test Focus", "Analysis"]

/-- Embedding of `K6AnalysisService._format_analysis_result` (analysis
service lines 1029–1149), at the call site used by `analyze` (test/project
metadata defaulted to empty strings; `now` stands for the
`formatted_at` timestamp).  The nested-`Analysis`-field recovery (lines
1096–1107), which calls the unmodelled `_parse_analysis_text`, makes the
result unavailable (`none`); every other path is embedded. -/
def format_analysis_result (analysisData : PyVal) (k6Metrics : List (String × PyVal))
    (now : String) : Option (List (String × PyVal)) :=
  if !pyTruthy analysisData then
    some [("error", .str "AI分析结果为空，可能是AI引擎未返回有效数据"),
          ("test_name", .str ""), ("test_description", .str ""),
          ("test_requirement", .str ""), ("project_name", .str ""),
          ("project_description", .str ""),
          ("key_metrics", keyMetricsEcho k6Metrics),
          ("formatted_at", .str now)]
  else
    let base : List (String × PyVal) :=
      [("test_name", .str ""), ("test_description", .str ""),
       ("test_requirement", .str ""), ("project_name", .str ""),
       ("project_description", .str ""),
       ("key_metrics", keyMetricsEcho k6Metrics),
       ("formatted_at", .str now)]
    let ad1 :=
      match analysisData with
      | .str s =>
        match py_literal_eval s with
        | some (.dict d) => PyVal.dict d
        | _ => analysisData
      | v => v
    match ad1 with
    | .dict d =>
      match pyGet d "Analysis" with
      | some (.str _) => Option.none
      | _ =>
        let d2 := pyDelKeys d excludedFields
        let f1 := base ++ [("raw_analysis", .dict d2)]
        let f2 := pyUpdate f1 d2
        (format_as_markdown d2 "" "" "" "" "").map (fun md =>
          pyUpdate f2 [("markdown", .str md)])
    | .str s =>
      some (base ++ [("raw_analysis", .str s), ("markdown", .str s)])
    | other =>
      some (base ++ [("raw_analysis", .str (pyFStr other)),
                     ("markdown", .str (pyFStr other))])

/-- Outcome of the analysis request to the AI engine, the environment
interaction of `analyze_performance_results`: a request-level failure
(`httpx.RequestError` — service unreachable), an HTTP error status
(`httpx.HTTPStatusError`, carrying the resolved `detail` field of the
error body when its JSON parses to a dict containing one, and the raw
body text), or a successful JSON response. -/
inductive AiRequestOutcome where
  | requestError (msg : String)
  | httpStatusError (code : Int) (detail : Option String) (text : String)
  | ok (aiResult : PyVal)

/-- Result of `analyze_performance_results`: the status tag, the
`analysis` payload when present (the formatted dict), the `error` message
when present, and the `generated_at` timestamp. -/
structure AnalyzeResult where
  status : String
  analysis : Option (List (String × PyVal))
  error : Option String
  generated_at : String

/-- The AI engine base URL (analysis service line 13). -/
def aiEngineUrl : String := "http://localhost:8001"

/-- Embedding of `K6AnalysisService.analyze_performance_results`
(analysis service lines 143–471) as a function of the request outcome.
A request failure or HTTP error returns the tagged error dict without an
`analysis` key and without raising — the exception handlers at lines
444–471 — and a successful response flows through the defensive parse
cascade, exclusion of echoed fields, and result formatting.  The
nested-`Analysis` recovery (lines 335–384), which the claims do not
exercise, is unmodelled and yields `none`. -/
def analyze_performance_results (outcome : AiRequestOutcome)
    (k6Metrics : List (String × PyVal)) (now : String) : Option AnalyzeResult :=
  match outcome with
  | .requestError msg =>
    some { status := "error"
           analysis := Option.none
           error := some ("AI分析服务暂时不可用: " ++ msg ++ "。请检查AI引擎是否运行在 " ++ aiEngineUrl)
           generated_at := now }
  | .httpStatusError code detail text =>
    let suffix :=
      match detail with
      | some d => " - " ++ d
      | Option.none => " - " ++ String.mk (text.data.take 200)
    some { status := "error"
           analysis := Option.none
           error := some ("AI分析服务错误: " ++ toString code ++ suffix)
           generated_at := now }
  | .ok aiResult =>
    match aiResult with
    | .dict ar =>
      let ad0 : PyVal :=
        match pyGet ar "analysis" with
        | some v =>
          if pyTruthy v then v
          else
            match pyGet ar "data" with
            | some w => if pyTruthy w then w else aiResult
            | Option.none => aiResult
        | Option.none =>
          match pyGet ar "data" with
          | some w => if pyTruthy w then w else aiResult
          | Option.none => aiResult
      let ad1 :=
        match ad0 with
        | .str s => parse_analysis_string s
        | v => v
      let ad2 :=
        match ad1 with
        | .dict d => PyVal.dict d
        | v => PyVal.dict [("raw_analysis", .str (pyFStr v))]
      match ad2 with
      | .dict d =>
        if pyHasKey d "Analysis" then Option.none
        else
          let d2 := pyDelKeys d excludedFields
          let d3 := if d2.isEmpty then ar else d2
          (format_analysis_result (.dict d3) k6Metrics now).map (fun fa =>
            { status := "success"
              analysis := some fa
              error := Option.none
              generated_at := now })
      | _ => Option.none
    | _ =>
      some { status := "success"
             analysis := some [("raw_analysis", .str (pyFStr aiResult))]
             error := Option.none
             generated_at := now }

instance : IsTotal (String × PyVal) valuesLe :=
  ⟨fun a b => Nat.le_total (valuesSortKey a) (valuesSortKey b)⟩

instance : IsTrans (String × PyVal) valuesLe :=
  ⟨fun _ _ _ h1 h2 => Nat.le_trans h1 h2⟩

/-- Example script of the sanitizer claim: an import line, a declaration
of a `Counter` over the built-in name `http_reqs`, a use of the bound
variable, and the exported entry point. -/
def c5Script : String :=
  "import http from " ++ sqs ++ "k6/http" ++ sqs ++ ";\n" ++
  "const c = new Counter(" ++ sqs ++ "http_reqs" ++ sqs ++ ");\n" ++
  "c.add(1);\n" ++
  "export default function() {}"

/-- The script of `c5Script` after sanitization: declaration and use lines
are gone. -/
def c5Cleaned : String :=
  "import http from " ++ sqs ++ "k6/http" ++ sqs ++ ";\n" ++
  "export default function() {}"

/-- Counter construction over the built-in name, as a character sequence
(single-quoted, as in the script). -/
def c5CounterNeedle : List Char :=
  "new Counter(".data ++ [sq] ++ "http_reqs".data

/-- Fifteen-entry `values` map with numeric-string keys 1 … 15. -/
def c7vs : List (String × PyVal) :=
  ["1", "2", "3", "4", "5", "6", "7", "8", "9", "10", "11", "12", "13", "14", "15"].map
    (fun k => (k, PyVal.int (natOfDigits k.data)))

/-- Bare Python-dict-style analysis payload with a performance-rating
field, single-quoted keys and values and Python `True` / `None` tokens,
parameterised by the rating value. -/
def c9PayloadOf (rt : String) : String :=
  "\x7b" ++ sqs ++ "performance_rating" ++ sqs ++ ": " ++ sqs ++ rt ++ sqs ++ ", " ++
  sqs ++ "达标" ++ sqs ++ ": True, " ++ sqs ++ "备注" ++ sqs ++ ": None\x7d"

/-- The payload at the rating value of the specification example. -/
def c9Payload : String := c9PayloadOf "优秀"

/-- Parsed analysis dict corresponding to `c9PayloadOf`. -/
def c9ParsedOf (rt : String) : List (String × PyVal) :=
  [("performance_rating", .str rt), ("达标", .bool true), ("备注", .none)]

/-- Markdown report produced for the payload of `c9PayloadOf`. -/
def c9MarkdownOf (rt : String) : String :=
  joinStrSep "\n"
    ["# 📊 性能测试分析报告\n", "\n", "## 🧪 测试信息\n", "\n", "---\n", "\n",
     "## " ++ ratingEmoji (.str rt) ++ " 性能评估\n",
     "**整体评级**: " ++ rt ++ "\n", "\n"]

/-- Formatted analysis dict produced for the payload of `c9PayloadOf`. -/
def c9FormattedOf (rt now : String) : List (String × PyVal) :=
  [("test_name", .str ""), ("test_description", .str ""), ("test_requirement", .str ""),
   ("project_name", .str ""), ("project_description", .str ""),
   ("key_metrics", keyMetricsEcho []), ("formatted_at", .str now),
   ("raw_analysis", .dict (c9ParsedOf rt)),
   ("performance_rating", .str rt), ("达标", .bool true), ("备注", .none),
   ("markdown", .str (c9MarkdownOf rt))]

/-! Helper lemmas for the sanitizer idempotence proof (claim C4). -/

theorem splitLines_ne_nil (cs : List Char) : splitLines cs ≠ [] := by
  induction cs with
  | nil => simp [splitLines]
  | cons c rest ih =>
    simp only [splitLines]
    split
    · simp
    · match h : splitLines rest with
      | [] => simp
      | hh :: tt => simp

theorem no_newline_of_mem_splitLines (cs : List Char) (l : List Char)
    (hl : l ∈ splitLines cs) : Char.ofNat 10 ∉ l := by
  induction cs generalizing l with
  | nil =>
    simp [splitLines] at hl
    simp [hl]
  | cons c rest ih =>
    simp only [splitLines] at hl
    by_cases hc : c = Char.ofNat 10
    · simp [hc] at hl
      rcases hl with h | h
      · simp [h]
      · exact ih l h
    · simp [hc] at hl
      match hr : splitLines rest with
      | [] => exact absurd hr (splitLines_ne_nil rest)
      | hh :: tt =>
        rw [hr] at hl
        simp at hl
        rcases hl with h | h
        · subst h
          intro hmem
          rcases List.mem_cons.mp hmem with h1 | h1
          · exact hc h1.symm
          · exact ih hh (by rw [hr]; exact List.mem_cons_self hh tt) h1
        · exact ih l (by rw [hr]; exact List.mem_cons_of_mem hh h)

theorem splitLines_single (l : List Char) (hl : Char.ofNat 10 ∉ l) :
    splitLines l = [l] := by
  induction l with
  | nil => simp [splitLines]
  | cons c rest ih =>
    have hc : c ≠ Char.ofNat 10 := fun h => hl (h ▸ List.mem_cons_self c rest)
    have hrest : Char.ofNat 10 ∉ rest := fun h => hl (List.mem_cons_of_mem c h)
    simp only [splitLines, ih hrest, hc]
    simp

theorem splitLines_append_newline (l z : List Char) (hl : Char.ofNat 10 ∉ l) :
    splitLines (l ++ Char.ofNat 10 :: z) = l :: splitLines z := by
  induction l with
  | nil => simp [splitLines]
  | cons c rest ih =>
    have hc : c ≠ Char.ofNat 10 := fun h => hl (h ▸ List.mem_cons_self c rest)
    have hrest : Char.ofNat 10 ∉ rest := fun h => hl (List.mem_cons_of_mem c h)
    simp only [List.cons_append, splitLines, hc, if_false, List.append_eq]
    rw [ih hrest]

theorem splitLines_joinLines (ls : List (List Char)) (hne : ls ≠ [])
    (hnl : ∀ l ∈ ls, Char.ofNat 10 ∉ l) : splitLines (joinLines ls) = ls := by
  induction ls with
  | nil => exact absurd rfl hne
  | cons l rest ih =>
    match rest with
    | [] =>
      simp only [joinLines]
      exact splitLines_single l (hnl l (List.mem_cons_self l []))
    | l2 :: rest2 =>
      have h1 : joinLines (l :: l2 :: rest2) = l ++ Char.ofNat 10 :: joinLines (l2 :: rest2) := rfl
      rw [h1, splitLines_append_newline l _ (hnl l (List.mem_cons_self l _))]
      rw [ih (by simp) (fun x hx => hnl x (List.mem_cons_of_mem l hx))]

theorem clean_k6_script_nil : clean_k6_script [] = [] := by decide

theorem cleanLinesPass_idem (lines : List (List Char)) :
    cleanLinesPass (cleanLinesPass lines) = cleanLinesPass lines := by
  unfold cleanLinesPass
  apply List.filter_eq_self.mpr
  intro l hl
  have hk := List.of_mem_filter hl
  simp only [Bool.not_eq_true', Bool.or_eq_false_iff] at hk
  simp only [Bool.not_eq_true', Bool.or_eq_false_iff]
  refine ⟨hk.1, ?_⟩
  cases h2 : (((List.filter _ lines).flatMap collectLineVars).any (fun v => lineUsesVar v l)) with
  | false => rfl
  | true =>
    exfalso
    rcases List.any_eq_true.mp h2 with ⟨v, hv, huse⟩
    rcases List.mem_flatMap.mp hv with ⟨l2, hl2, hvl2⟩
    have hvin : v ∈ lines.flatMap collectLineVars :=
      List.mem_flatMap.mpr ⟨l2, List.mem_of_mem_filter hl2, hvl2⟩
    have : (lines.flatMap collectLineVars).any (fun v => lineUsesVar v l) = true :=
      List.any_eq_true.mpr ⟨v, hvin, huse⟩
    rw [hk.2] at this
    exact Bool.false_ne_true this

theorem clean_k6_script_idem (s : List Char) :
    clean_k6_script (clean_k6_script s) = clean_k6_script s := by
  unfold clean_k6_script
  by_cases hne : cleanLinesPass (splitLines s) = []
  · rw [hne]
    have h0 : joinLines ([] : List (List Char)) = [] := rfl
    rw [h0]
    have := clean_k6_script_nil
    unfold clean_k6_script at this
    exact this
  · have hnl : ∀ l ∈ cleanLinesPass (splitLines s), Char.ofNat 10 ∉ l := by
      intro l hl
      exact no_newline_of_mem_splitLines s l (List.mem_of_mem_filter hl)
    rw [splitLines_joinLines _ hne hnl, cleanLinesPass_idem]

/-- Claim C4: the built-in-metric script sanitizer is idempotent — cleaning
an already cleaned script a second time changes nothing, for every input
script. -/
theorem c4_sanitizer_idempotent (s : String) :
    cleanK6ScriptStr (cleanK6ScriptStr s) = cleanK6ScriptStr s :=
  congrArg String.mk (clean_k6_script_idem s.data)

/-- Claim C1 (counterexample): the claim states that the returned result
always carries the exit code; on the timeout path the result dict is
built without an `exit_code` key, refuting that at a concrete timeout
outcome. -/
theorem c1_counterexample :
    ((k6_execute "" .timesOut "t0").exit_code).isSome = false := by
  decide

/-- Claim C1 (amended): on normal subprocess completion the result carries
the exit code and maps it as the claim states — 0 and the
threshold-failure code 99 yield `completed`, every other exit code yields
`failed` — and across all paths the status is drawn from
`{completed, failed, timeout, error}`. -/
theorem c1_exit_code_status_mapping :
    (∀ (s : String) (rc : Int) (out err : String)
        (f : Option (Except String PyVal)) (now : String),
        (k6_execute s (.completes rc out err f) now).exit_code = some rc ∧
        (k6_execute s (.completes rc out err f) now).status =
          (if rc = 0 ∨ rc = 99 then "completed" else "failed")) ∧
    (∀ (s : String) (run : K6RunOutcome) (now : String),
        (k6_execute s run now).status ∈ ["completed", "failed", "timeout", "error"]) := by
  constructor
  · intro s rc out err f now
    refine ⟨rfl, ?_⟩
    show status_of_exit_code rc = _
    unfold status_of_exit_code
    by_cases h0 : rc = 0
    · simp [h0]
    · by_cases h99 : rc = 99
      · simp [h0, h99]
      · by_cases h1 : rc = 1 <;> simp [h0, h99, h1]
  · intro s run now
    cases run with
    | completes rc out err f =>
      show status_of_exit_code rc ∈ _
      unfold status_of_exit_code
      by_cases h0 : rc = 0
      · simp [h0]
      · by_cases h99 : rc = 99
        · simp [h0, h99]
        · by_cases h1 : rc = 1 <;> simp [h0, h99, h1]
    | timesOut => simp [k6_execute]
    | raises m => simp [k6_execute]

/-- Claim C2 (counterexample): for the description
`在 3s 内加到 100 用户，然后持续 30s 保持 121 用户` the claimed extraction
(ramp-up 3s with target 100, hold 30s) and stage sequence
`[(3s,100),(30s,121),(1s,0)]` do not hold on the code: the compound
ramp-up patterns require `加到` directly after the duration (or the
phrase `缓慢加压到`), so `内加到` matches none of them, and the generic
`(digits)s` duration pattern picks up the first `3s`. -/
theorem c2_counterexample :
    decide
      ((extractParams "在 3s 内加到 100 用户，然后持续 30s 保持 121 用户").ramp_up_duration = some "3s" ∧
       (extractParams "在 3s 内加到 100 用户，然后持续 30s 保持 121 用户").ramp_up_target = some 100 ∧
       (extractParams "在 3s 内加到 100 用户，然后持续 30s 保持 121 用户").duration = some "30s" ∧
       (build_prompt_params "在 3s 内加到 100 用户，然后持续 30s 保持 121 用户".data
          Option.none Option.none Option.none
          (extractParams "在 3s 内加到 100 用户，然后持续 30s 保持 121 用户")).stages =
         [⟨"3s", 100⟩, ⟨"30s", 121⟩, ⟨"1s", 0⟩]) = false := by
  decide

/-- Claim C2 (amended): for that description the requirement-text cleaning
is the identity, extraction yields virtual users 100 and hold duration 3s
with no ramp-up captured, and the stage sequence embedded in the prompt is
`[(1s,100),(3s,100),(1s,0)]`. -/
theorem c2_extraction_and_stages :
    clean_requirement_text "在 3s 内加到 100 用户，然后持续 30s 保持 121 用户".data =
      "在 3s 内加到 100 用户，然后持续 30s 保持 121 用户".data ∧
    extractParams "在 3s 内加到 100 用户，然后持续 30s 保持 121 用户" =
      ⟨some 100, Option.none, Option.none, some "3s", Option.none, Option.none⟩ ∧
    (build_prompt_params "在 3s 内加到 100 用户，然后持续 30s 保持 121 用户".data
        Option.none Option.none Option.none
        (extractParams "在 3s 内加到 100 用户，然后持续 30s 保持 121 用户")).stages =
      [⟨"1s", 100⟩, ⟨"3s", 100⟩, ⟨"1s", 0⟩] := by
  refine ⟨by decide, by decide, by decide⟩

/-- Claim C3 (counterexample): the claim entails that for a description
whose digits all lie inside the recognised URL substring, no numeric
field is populated; for `对 https://example.com/30s/api 进行压力测试`
(digit-free prefix and suffix around the URL, which is recognised
verbatim) the hold-duration field is nevertheless populated — it is not
`Option.none` — refuting the claim at this concrete input. -/
theorem c3_counterexample :
    "对 ".data.any isDigitCh = false ∧
    " 进行压力测试".data.any isDigitCh = false ∧
    (extractParams ("对 " ++ "https://example.com/30s/api" ++ " 进行压力测试")).url =
      some "https://example.com/30s/api" ∧
    decide ((extractParams ("对 " ++ "https://example.com/30s/api" ++ " 进行压力测试")).duration =
      Option.none) = false := by
  refine ⟨by decide, by decide, by decide, by decide⟩

/-- Claim C3 (amended): URL substrings are not protected before the
generic number patterns run — the protection spans computed by the
requirement-text cleaning are never applied (the cleaning is whitespace
normalisation only) — so a number occurring only inside a URL can
populate a numeric field: in the description below every digit lies
inside the URL, the URL itself is extracted verbatim, and the hold
duration is taken as `30s` from inside the URL. -/
theorem c3_url_number_extracted :
    clean_requirement_text ("对 " ++ "https://example.com/30s/api" ++ " 进行压力测试").data =
      ("对 " ++ "https://example.com/30s/api" ++ " 进行压力测试").data ∧
    "对 ".data.any isDigitCh = false ∧
    " 进行压力测试".data.any isDigitCh = false ∧
    (extractParams ("对 " ++ "https://example.com/30s/api" ++ " 进行压力测试")).url =
      some "https://example.com/30s/api" ∧
    (extractParams ("对 " ++ "https://example.com/30s/api" ++ " 进行压力测试")).duration =
      some "30s" := by
  refine ⟨by decide, by decide, by decide, by decide, by decide⟩

/-- Claim C5: for a script containing the declaration line
`const c = new Counter(/http_reqs/);` and the separate line `c.add(1);`,
the sanitizer removes both lines (the declaration by the removal
patterns, the use because `c` was collected in the first pass), the
surrounding lines survive, and the result no longer contains a `Counter`
construction of `http_reqs`. -/
theorem c5_sanitizer_removes_decl_and_use :
    cleanK6ScriptStr c5Script = c5Cleaned ∧
    containsSeq c5Script.data c5CounterNeedle = true ∧
    containsSeq (cleanK6ScriptStr c5Script).data c5CounterNeedle = false := by
  refine ⟨by decide, by decide, by decide⟩

/-- Claim C6: the executor cleans up its temporary artifacts on every exit
path (the `finally` block, modelled by `cleanup_ran`, runs on success,
failure, timeout and exception alike); a subprocess timeout yields status
`timeout` with no summary metrics, and an exception while building or
launching the subprocess yields status `error` carrying the exception
message — the embedding is a total function, mirroring that no exception
propagates to the caller. -/
theorem c6_cleanup_and_failure_semantics :
    ∀ (s : String) (run : K6RunOutcome) (now : String),
      (k6_execute s run now).cleanup_ran = true ∧
      (run = .timesOut →
        (k6_execute s run now).status = "timeout" ∧
        (k6_execute s run now).metrics = Option.none ∧
        (k6_execute s run now).summary = Option.none ∧
        (k6_execute s run now).exit_code = Option.none) ∧
      (∀ msg, run = .raises msg →
        (k6_execute s run now).status = "error" ∧
        (k6_execute s run now).error = some msg ∧
        (k6_execute s run now).metrics = Option.none) := by
  intro s run now
  cases run with
  | completes rc out err f =>
    refine ⟨rfl, ?_, ?_⟩
    · intro hc; cases hc
    · intro msg hc; cases hc
  | timesOut =>
    refine ⟨rfl, ?_, ?_⟩
    · intro _; exact ⟨rfl, rfl, rfl, rfl⟩
    · intro msg hc; cases hc
  | raises m =>
    refine ⟨rfl, ?_, ?_⟩
    · intro hc; cases hc
    · intro msg hc
      cases hc
      exact ⟨rfl, rfl, rfl⟩

/-- Witness for claim C6: the timeout and exception branches at concrete
inputs, obtained by applying the theorem. -/
theorem c6_witness :
    (k6_execute "x" .timesOut "t0").cleanup_ran = true ∧
    (k6_execute "x" .timesOut "t0").status = "timeout" ∧
    (k6_execute "x" (.raises "boom") "t0").error = some "boom" :=
  ⟨(c6_cleanup_and_failure_semantics "x" .timesOut "t0").1,
   ((c6_cleanup_and_failure_semantics "x" .timesOut "t0").2.1 rfl).1,
   (((c6_cleanup_and_failure_semantics "x" (.raises "boom") "t0").2.2) "boom" rfl).2.1⟩

/-- Claim C10: a regex-extracted virtual-user count of 0 is
indistinguishable from an absent value — the falsy check triggers the LLM
fallback, and when the fallback and load configuration supply nothing the
resolved virtual-user count in the composed prompt is the default 10, not
the extracted 0. -/
theorem c10_zero_vus_treated_as_absent :
    ∀ (d : String), (extractParams d).vus = some 0 →
      needs_ai_fallback (extractParams d) = true ∧
      (mergeParams (extractParams d) aiParamsEmpty).vus = some 0 ∧
      resolve_final_vus ((mergeParams (extractParams d) aiParamsEmpty).vus) Option.none = 10 ∧
      (build_prompt_params d.data Option.none Option.none Option.none
        (mergeParams (extractParams d) aiParamsEmpty)).final_vus = 10 := by
  intro d h
  have hm : mergeParams (extractParams d) aiParamsEmpty = extractParams d := rfl
  refine ⟨?_, ?_, ?_, ?_⟩
  · simp [needs_ai_fallback, truthyNat, h]
  · rw [hm, h]
  · rw [hm, h]
    rfl
  · rw [hm]
    show resolve_final_vus (extractParams d).vus Option.none = 10
    rw [h]
    rfl

/-- Witness for claim C10: the description `0并发用户持续10秒` extracts a
virtual-user count of 0, triggers the fallback and resolves to the
default 10. -/
theorem c10_witness :
    needs_ai_fallback (extractParams "0并发用户持续10秒") = true ∧
    (mergeParams (extractParams "0并发用户持续10秒") aiParamsEmpty).vus = some 0 ∧
    resolve_final_vus ((mergeParams (extractParams "0并发用户持续10秒") aiParamsEmpty).vus)
      Option.none = 10 ∧
    (build_prompt_params "0并发用户持续10秒".data Option.none Option.none Option.none
      (mergeParams (extractParams "0并发用户持续10秒") aiParamsEmpty)).final_vus = 10 :=
  c10_zero_vus_treated_as_absent "0并发用户持续10秒" (by decide)

theorem valuesSortKey_eq_natOfDigits {kv : String × PyVal}
    (h : isDigitStr kv.1.data = true) : valuesSortKey kv = natOfDigits kv.1.data := by
  simp [valuesSortKey, h]

/-- Claim C7: when the normalizer processes a metric whose raw `values`
map has more than 10 entries with numeric-string keys (numerically
distinct), the output retains exactly 10 entries, every retained entry
comes from the input, and every retained entry has a numerically larger
key than every dropped entry — the chronologically last 10; a map with at
most 10 entries passes through unchanged.  The final conjunct ties the
truncation to the per-metric normalisation itself. -/
theorem c7_values_map_truncation (vs : List (String × PyVal))
    (hnum : ∀ kv ∈ vs, isDigitStr kv.1.data = true)
    (hdist : vs.Pairwise (fun a b => natOfDigits a.1.data ≠ natOfDigits b.1.data)) :
    (10 < vs.length →
      (truncate_values_map vs).length = 10 ∧
      (∀ kv ∈ truncate_values_map vs, kv ∈ vs) ∧
      (∀ y ∈ vs, y ∉ truncate_values_map vs →
        ∀ x ∈ truncate_values_map vs,
          natOfDigits y.1.data < natOfDigits x.1.data)) ∧
    (vs.length ≤ 10 → truncate_values_map vs = vs) ∧
    (∀ md : List (String × PyVal), pyGet md "values" = some (.dict vs) →
      parse_one_metric (.dict md) = .dict
        ((aggFieldKeys.filterMap (fun kk => (pyGet md kk.1).map (fun v => (kk.2, v)))) ++
         [("values", .dict (truncate_values_map vs))])) := by
  refine ⟨?_, ?_, ?_⟩
  · intro hlen
    have hperm : List.Perm (List.insertionSort valuesLe vs) vs := List.perm_insertionSort valuesLe vs
    have hslen : (List.insertionSort valuesLe vs).length = vs.length := hperm.length_eq
    have htrunc : truncate_values_map vs =
        (List.insertionSort valuesLe vs).drop (vs.length - 10) := by
      simp [truncate_values_map, hlen]
    refine ⟨?_, ?_, ?_⟩
    · rw [htrunc, List.length_drop, hslen]
      omega
    · intro kv hkv
      rw [htrunc] at hkv
      exact hperm.mem_iff.mp (List.mem_of_mem_drop hkv)
    · intro y hy hynot x hx
      rw [htrunc] at hynot hx
      have hyS : y ∈ List.insertionSort valuesLe vs := hperm.mem_iff.mpr hy
      have hsplit := List.take_append_drop (vs.length - 10) (List.insertionSort valuesLe vs)
      have hytake : y ∈ (List.insertionSort valuesLe vs).take (vs.length - 10) := by
        rcases List.mem_append.mp (by rw [hsplit]; exact hyS) with h | h
        · exact h
        · exact absurd h hynot
      have hsorted : List.Sorted valuesLe (List.insertionSort valuesLe vs) :=
        List.sorted_insertionSort valuesLe vs
      have hpair : List.Pairwise valuesLe
          ((List.insertionSort valuesLe vs).take (vs.length - 10) ++
           (List.insertionSort valuesLe vs).drop (vs.length - 10)) := by
        rw [hsplit]; exact hsorted
      have hle : valuesLe y x :=
        (List.pairwise_append.mp hpair).2.2 y hytake x hx
      have hdistS : List.Pairwise (fun a b => natOfDigits a.1.data ≠ natOfDigits b.1.data)
          (List.insertionSort valuesLe vs) := by
        refine (List.Perm.pairwise_iff ?_ hperm.symm).mp hdist
        intro a b hab
        exact fun e => hab e.symm
      have hpair2 : List.Pairwise (fun a b => natOfDigits a.1.data ≠ natOfDigits b.1.data)
          ((List.insertionSort valuesLe vs).take (vs.length - 10) ++
           (List.insertionSort valuesLe vs).drop (vs.length - 10)) := by
        rw [hsplit]; exact hdistS
      have hne : natOfDigits y.1.data ≠ natOfDigits x.1.data :=
        (List.pairwise_append.mp hpair2).2.2 y hytake x hx
      have hxin : x ∈ vs := hperm.mem_iff.mp (List.mem_of_mem_drop hx)
      have hky := valuesSortKey_eq_natOfDigits (hnum y hy)
      have hkx := valuesSortKey_eq_natOfDigits (hnum x hxin)
      have : valuesSortKey y ≤ valuesSortKey x := hle
      omega
  · intro hlen
    simp [truncate_values_map]
    omega
  · intro md hmd
    simp [parse_one_metric, hmd]

/-- Witness for claim C7: the 15-entry map with keys 1 … 15 truncates to
10 entries drawn from the input. -/
theorem c7_witness :
    10 < c7vs.length ∧
    (truncate_values_map c7vs).length = 10 ∧
    (∀ kv ∈ truncate_values_map c7vs, kv ∈ c7vs) := by
  have h := c7_values_map_truncation c7vs (by decide) (by decide)
  have hlen : 10 < c7vs.length := by decide
  exact ⟨hlen, (h.1 hlen).1, (h.1 hlen).2.1⟩

/-- Claim C8: a request-level failure of the text-generation service —
unreachable service or HTTP error status — makes the analysis return a
result with status `error` and a descriptive message, with no analysis
payload; the embedding being a total function on these branches mirrors
that the exception handlers never re-raise to the caller. -/
theorem c8_request_failure_semantics :
    ∀ (msg : String) (code : Int) (detail : Option String) (text : String)
      (metrics : List (String × PyVal)) (now : String),
      (analyze_performance_results (.requestError msg) metrics now =
        some { status := "error", analysis := Option.none,
               error := some ("AI分析服务暂时不可用: " ++ msg ++
                 "。请检查AI引擎是否运行在 " ++ aiEngineUrl),
               generated_at := now }) ∧
      (∃ e, analyze_performance_results (.httpStatusError code detail text) metrics now =
          some { status := "error", analysis := Option.none, error := some e,
                 generated_at := now } ∧
        ∃ tail, e = "AI分析服务错误: " ++ toString code ++ tail) := by
  intro msg code detail text metrics now
  refine ⟨rfl, ?_⟩
  cases detail with
  | none => exact ⟨_, rfl, _, rfl⟩
  | some d => exact ⟨_, rfl, _, rfl⟩

theorem infix_of_mem_joinStrSep (sep p : String) (parts : List String)
    (hp : p ∈ parts) : List.IsInfix p.data (joinStrSep sep parts).data := by
  induction parts with
  | nil => cases hp
  | cons x xs ih =>
    match xs with
    | [] =>
      have : p = x := by simpa using hp
      subst this
      exact List.infix_rfl
    | y :: ys =>
      rcases List.mem_cons.mp hp with h | h
      · subst h
        show List.IsInfix p.data (p ++ sep ++ joinStrSep sep (y :: ys)).data
        refine ⟨[], (sep ++ joinStrSep sep (y :: ys)).data, ?_⟩
        simp
      · have h2 := ih h
        show List.IsInfix p.data (x ++ sep ++ joinStrSep sep (y :: ys)).data
        refine h2.trans ⟨(x ++ sep).data, [], ?_⟩
        simp

theorem format_markdown_rating (rt : String) (h : rt ≠ "") :
    format_as_markdown (c9ParsedOf rt) "" "" "" "" "" = some (c9MarkdownOf rt) := by
  simp [format_as_markdown, c9ParsedOf, sectionVal, pyGet, pyTruthy, h, pyFStr, c9MarkdownOf]

theorem c9PayloadOf_ne_empty (rt : String) : c9PayloadOf rt ≠ "" := by
  intro he
  have hd := congrArg String.data he
  simp [c9PayloadOf, String.data_append, sqs] at hd

/-- Claim C9: a successful generation-service response whose `analysis`
payload is a bare Python-dict-style string with single-quoted keys and
values and Python `True` / `None` tokens, containing a performance-rating
field, is parsed by the Python-literal strategy (the `ast.literal_eval`
branch of the cascade — the parse hypothesis, discharged concretely by
the witness) and analysed to status `success` with a non-empty rendered
markdown report containing the recovered rating value. -/
theorem c9_python_literal_payload (rt : String) (now : String) (h1 : rt ≠ "")
    (h2 : py_literal_eval (c9PayloadOf rt) = some (.dict (c9ParsedOf rt))) :
    ∃ r fa md,
      analyze_performance_results (.ok (.dict [("analysis", .str (c9PayloadOf rt))])) [] now =
        some r ∧
      r.status = "success" ∧
      r.analysis = some fa ∧
      pyGet fa "markdown" = some (.str md) ∧
      md ≠ "" ∧
      List.IsInfix ("**整体评级**: " ++ rt).data md.data := by
  have hparse : parse_analysis_string (c9PayloadOf rt) = .dict (c9ParsedOf rt) := by
    unfold parse_analysis_string
    rw [h2]
  have hmd := format_markdown_rating rt h1
  simp only [c9ParsedOf] at hmd
  have hne := c9PayloadOf_ne_empty rt
  have hA : analyze_performance_results
      (.ok (.dict [("analysis", .str (c9PayloadOf rt))])) [] now =
      some { status := "success", analysis := some (c9FormattedOf rt now),
             error := Option.none, generated_at := now } := by
    simp [analyze_performance_results, pyGet, pyTruthy, hne, hparse, c9ParsedOf,
      pyHasKey, pyDelKeys, excludedFields, format_analysis_result, pyUpdate,
      keyMetricsEcho, hmd, c9FormattedOf]
  refine ⟨_, _, c9MarkdownOf rt, hA, rfl, rfl, ?_, ?_, ?_⟩
  · simp [c9FormattedOf, pyGet]
  · intro he
    have hd := congrArg String.data he
    simp [c9MarkdownOf, joinStrSep, String.data_append] at hd
  · have hmem : ("**整体评级**: " ++ rt ++ "\n") ∈
        ["# 📊 性能测试分析报告\n", "\n", "## 🧪 测试信息\n", "\n", "---\n", "\n",
         "## " ++ ratingEmoji (.str rt) ++ " 性能评估\n",
         "**整体评级**: " ++ rt ++ "\n", "\n"] := by
      simp
    have hinf := infix_of_mem_joinStrSep "\n" _ _ hmem
    rw [c9MarkdownOf]
    refine List.IsInfix.trans ?_ hinf
    refine ⟨[], "\n".data, ?_⟩
    simp [String.data_append]

/-- Witness for claim C9: the specification example rating `优秀`; the
Python-literal parse hypothesis is discharged by computation. -/
theorem c9_witness :
    ∃ r fa md,
      analyze_performance_results (.ok (.dict [("analysis", .str (c9PayloadOf "优秀"))])) [] "t0" =
        some r ∧
      r.status = "success" ∧
      r.analysis = some fa ∧
      pyGet fa "markdown" = some (.str md) ∧
      md ≠ "" ∧
      List.IsInfix ("**整体评级**: " ++ "优秀").data md.data :=
  c9_python_literal_payload "优秀" "t0" (by decide) (by rfl)

end K6Spec

